import Mathlib

/-!
# Verification of the EKS custom-resource reconciler handlers

Shallow embedding of three Python lambda handlers from this repository:

* `packages/@aws-cdk/aws-eks-legacy/lib/cluster-resource/index.py`
  (the cluster lifecycle handler: `handler`, `should_replace_cluster`,
  `new_cluster_name`, `cfn_send`),
* `packages/@aws-cdk/aws-eks-legacy/lib/helm-chart/index.py`
  (the helm chart handler: `handler`, `helm`, `cfn_send`),
* `packages/@aws-cdk/aws-eks/lib/kubectl-handler/helm/__init__.py`
  (the retrying command runner inside `helm`).

Python dictionaries/values are embedded as the inductive `PyVal`; Python `==`
(structural, key-order-irrelevant for dicts) is embedded as `pyEq`, which
compares key-sorted normal forms.  Exceptions are embedded as `Except PyErr`;
the effectful handler bodies are embedded in a trace monad `Rec` that records
every external operation (boto3 calls, subprocess invocations, and each
`cfn_send`) so that theorems can speak about which operations an invocation
issued and which responses it sent.
-/

namespace AwsCdkEks

/-- Embedding of the Python values manipulated by the handlers: `None`,
booleans, integers, strings, lists and string-keyed dicts (the only shapes
that occur in CloudFormation events).  Dicts are association lists in event
insertion order; Python's key-order-irrelevant dict equality is recovered by
`pyEq` below. (Python's `True == 1` coercion is not modelled; the handlers
only ever compare strings, `None` and dicts.) -/
inductive PyVal where
  | none
  | bool (b : Bool)
  | int (n : Int)
  | str (s : String)
  | list (xs : List PyVal)
  | dict (kvs : List (String × PyVal))

/-- A Python dict body: association list of string keys in insertion order. -/
abbrev PyDict := List (String × PyVal)

/-- First binding of a key in a dict body (Python dicts have unique keys, so
"first" is "the" binding). -/
def pyLookup : PyDict → String → Option PyVal
  | [], _ => Option.none
  | (k', v) :: rest, k => if k' = k then some v else pyLookup rest k

/-- Python `d.get(k, None)` on a dict body. -/
def pyGet (d : PyDict) (k : String) : PyVal :=
  (pyLookup d k).getD PyVal.none

/-- Python `d[k] = v` on a dict body: overwrite in place, or append a new
binding at the end (Python preserves insertion order). -/
def pySet : PyDict → String → PyVal → PyDict
  | [], k, v => [(k, v)]
  | (k', v') :: rest, k, v =>
      if k' = k then (k, v) :: rest else (k', v') :: pySet rest k v

/-- Lexicographic strict order on character lists (used only to fix a
canonical key order; any strict total order would do). -/
def strListLt : List Char → List Char → Bool
  | [], [] => false
  | [], _ :: _ => true
  | _ :: _, [] => false
  | a :: as, b :: bs => if a < b then true else if b < a then false else strListLt as bs

/-- Lexicographic strict order on strings. -/
def strLt (a b : String) : Bool := strListLt a.data b.data

/-- Insert one key/value pair into a key-sorted list (insertion sort step). -/
def insertKV (p : String × PyVal) : List (String × PyVal) → List (String × PyVal)
  | [] => [p]
  | q :: rest => if strLt p.1 q.1 then p :: q :: rest else q :: insertKV p rest

/-- Sort a dict body by key (insertion sort), to canonicalize key order. -/
def sortKVs : List (String × PyVal) → List (String × PyVal)
  | [] => []
  | p :: rest => insertKV p (sortKVs rest)

mutual
/-- Key-order normal form of a value: recursively sort every dict by key.
Two Python values are `==` exactly when their normal forms coincide. -/
def normalize : PyVal → PyVal
  | .none => .none
  | .bool b => .bool b
  | .int n => .int n
  | .str s => .str s
  | .list xs => .list (normalizeList xs)
  | .dict kvs => .dict (sortKVs (normalizeKVs kvs))
termination_by structural v => v

/-- `normalize` mapped over a list of values. -/
def normalizeList : List PyVal → List PyVal
  | [] => []
  | v :: vs => normalize v :: normalizeList vs
termination_by structural vs => vs

/-- `normalize` mapped over dict entries. -/
def normalizeKVs : List (String × PyVal) → List (String × PyVal)
  | [] => []
  | (k, v) :: kvs => (k, normalize v) :: normalizeKVs kvs
termination_by structural kvs => kvs
end

mutual
/-- Structural (constructor-wise) equality test on embedded values. -/
def pyBeq : PyVal → PyVal → Bool
  | .none, .none => true
  | .bool a, .bool b => a == b
  | .int a, .int b => a == b
  | .str a, .str b => a == b
  | .list xs, .list ys => pyBeqList xs ys
  | .dict xs, .dict ys => pyBeqKVs xs ys
  | _, _ => false
termination_by structural a => a

/-- `pyBeq` lifted pointwise to lists of values. -/
def pyBeqList : List PyVal → List PyVal → Bool
  | [], [] => true
  | x :: xs, y :: ys => pyBeq x y && pyBeqList xs ys
  | _, _ => false
termination_by structural a => a

/-- `pyBeq` lifted pointwise to dict entries. -/
def pyBeqKVs : List (String × PyVal) → List (String × PyVal) → Bool
  | [], [] => true
  | (k, v) :: xs, (k', w) :: ys => k == k' && pyBeq v w && pyBeqKVs xs ys
  | _, _ => false
termination_by structural a => a
end

/-- Python `==` on embedded values: structural equality with dict key order
irrelevant (structural comparison of key-sorted normal forms). -/
def pyEq (a b : PyVal) : Bool :=
  pyBeq (normalize a) (normalize b)

/-- `v is None` / `v == None` for embedded values (`None` is a singleton in
Python, so identity and equality agree on it). -/
def isNone : PyVal → Bool
  | .none => true
  | _ => false

/-- Python truthiness (`if x:`) for the embedded values. -/
def pyTruthy : PyVal → Bool
  | .none => false
  | .bool b => b
  | .int n => n ≠ 0
  | .str s => s ≠ ""
  | .list xs => !xs.isEmpty
  | .dict kvs => !kvs.isEmpty

/-- Truthiness of an optional string event field (`if physical_id:` where the
field may be missing (`None`) or an empty string, both falsy). -/
def optStrTruthy : Option String → Bool
  | Option.none => false
  | some s => s ≠ ""

/-- Embed an optional string event field as the Python value it holds. -/
def pyOfOptStr : Option String → PyVal
  | Option.none => PyVal.none
  | some s => PyVal.str s

/-- Python `str()` of an embedded value, as used by f-string interpolation in
the handlers' error messages (only the shapes those messages ever hold). -/
def pyStr : PyVal → String
  | .none => "None"
  | .bool b => if b then "True" else "False"
  | .int n => toString n
  | .str s => s
  | .list _ => "[...]"
  | .dict _ => "{...}"

/-- Embedded Python exceptions: `KeyError` (carrying the missing key) is
distinguished because the helm-chart handler catches it specially; every
other exception is carried as its `str()` message. -/
inductive PyErr where
  | keyError (k : String)
  | exc (msg : String)
deriving DecidableEq, Repr

/-- Python `str()` of an exception: `str(KeyError(k))` is the repr of the key,
i.e. the key wrapped in single quotes. -/
def PyErr.str : PyErr → String
  | .keyError k => "'" ++ k ++ "'"
  | .exc m => m

/-- Python `d[k]` subscription: `KeyError` when the key is absent, `TypeError`
when the value is not a dict (message approximated; the handlers only use it
via the generic catch-all). -/
def pyIndex (v : PyVal) (k : String) : Except PyErr PyVal :=
  match v with
  | .dict kvs =>
      match pyLookup kvs k with
      | some w => Except.ok w
      | Option.none => Except.error (PyErr.keyError k)
  | _ => Except.error (PyErr.exc "TypeError: object is not subscriptable")

/-- Python `v.get(k, dflt)` on a value that is expected to be a dict:
`AttributeError` when it is not (message approximated). -/
def pyGetAttrD (v : PyVal) (k : String) (dflt : PyVal) : Except PyErr PyVal :=
  match v with
  | .dict kvs => Except.ok ((pyLookup kvs k).getD dflt)
  | _ => Except.error (PyErr.exc "AttributeError: object has no attribute get")

/-- `event[k]` for a required event field modelled as an `Option`: `KeyError`
when absent. -/
def keyOf (v : Option PyVal) (k : String) : Except PyErr PyVal :=
  match v with
  | some w => Except.ok w
  | Option.none => Except.error (PyErr.keyError k)

/-- Require a value to be a dict body (Python would fail at the first method
call or subscription otherwise; message approximated). -/
def asDict (v : PyVal) : Except PyErr PyDict :=
  match v with
  | .dict kvs => Except.ok kvs
  | _ => Except.error (PyErr.exc "TypeError: value is not a mapping")

/-! ## The trace monad

Each handler body runs inside a `try:` block, issues external operations
(boto3 calls, subprocess invocations, `cfn_send` transmissions) and may raise.
`Rec ev α` records the list of issued operations together with either a value
or the raised exception; the single outermost `except:` boundary of each
handler is the `match` in the corresponding `*Handler` definition. -/

/-- Trace monad: operations issued so far, and either a result or a raised
exception. On an exception, the operations issued before it are kept. -/
structure Rec (e : Type) (α : Type) where
  trace : List e
  res : Except PyErr α

instance : Monad (Rec e) where
  pure a := ⟨[], Except.ok a⟩
  bind m f :=
    match m.res with
    | Except.error err => ⟨m.trace, Except.error err⟩
    | Except.ok a => ⟨m.trace ++ (f a).trace, (f a).res⟩

/-- Lift a pure fallible step (no external operation) into the trace monad. -/
def rlift (r : Except PyErr α) : Rec e α := ⟨[], r⟩

/-- Issue an external operation whose outcome the environment (`oracle`)
decides; a failure is a raised exception carrying the `str()` message. -/
def callOp (op : e) (r : Except String α) : Rec e α :=
  ⟨[op], r.mapError PyErr.exc⟩

/-- Record an external operation that cannot fail (e.g. a `cfn_send`). -/
def emit (op : e) : Rec e Unit := ⟨[op], Except.ok ()⟩

/-- `raise` inside a handler body. -/
def pyRaise (err : PyErr) : Rec e α := ⟨[], Except.error err⟩

@[simp] theorem Rec.bind_ok (tr : List e) (a : α) (f : α → Rec e β) :
    ((Rec.mk tr (Except.ok a) : Rec e α) >>= f) =
      Rec.mk (tr ++ (f a).trace) (f a).res := rfl

@[simp] theorem Rec.bind_err (tr : List e) (err : PyErr) (f : α → Rec e β) :
    ((Rec.mk tr (Except.error err) : Rec e α) >>= f) =
      (Rec.mk tr (Except.error err) : Rec e β) := rfl

@[simp] theorem Rec.pure_def (a : α) : (pure a : Rec e α) = Rec.mk [] (Except.ok a) := rfl

@[simp] theorem rlift_ok (a : α) :
    (rlift (Except.ok a) : Rec e α) = Rec.mk [] (Except.ok a) := rfl

@[simp] theorem rlift_err (err : PyErr) :
    (rlift (Except.error err) : Rec e α) = Rec.mk [] (Except.error err) := rfl

@[simp] theorem callOp_ok (op : e) (a : α) :
    callOp op (Except.ok a) = (Rec.mk [op] (Except.ok a) : Rec e α) := rfl

@[simp] theorem callOp_err (op : e) (m : String) :
    callOp op (Except.error m) = (Rec.mk [op] (Except.error (PyErr.exc m)) : Rec e α) := rfl

@[simp] theorem emit_def (op : e) : emit op = (Rec.mk [op] (Except.ok ()) : Rec e Unit) := rfl

@[simp] theorem pyRaise_def (err : PyErr) :
    (pyRaise err : Rec e α) = (Rec.mk [] (Except.error err) : Rec e α) := rfl

/-! ## Shared response model (`cfn_send`)

Both legacy handlers build the same response body dict and HTTP-PUT it to the
event's `ResponseURL`; they differ only in the fallback for a missing
`physicalResourceId` argument. The PUT transport itself (whose failure is
only logged) is outside the reconciliation logic and is not modelled. -/

/-- `CFN_SUCCESS` -/
def CFN_SUCCESS : String := "SUCCESS"

/-- `CFN_FAILED` -/
def CFN_FAILED : String := "FAILED"

/-- The JSON body `cfn_send` PUTs to the response URL. -/
structure CfnResponse where
  Status : String
  Reason : String
  PhysicalResourceId : PyVal
  StackId : String
  RequestId : String
  LogicalResourceId : String
  NoEcho : Bool
  Data : PyDict

/-- `reason or f'See the details in CloudWatch Log Stream: {log_stream}'`
(Python `or`: `None` and the empty string both fall back). -/
def reasonOrDefault (reason : Option String) (logStream : String) : String :=
  match reason with
  | some r => if r = "" then "See the details in CloudWatch Log Stream: " ++ logStream else r
  | Option.none => "See the details in CloudWatch Log Stream: " ++ logStream

/-! ## Cluster-resource handler
(`aws-eks-legacy/lib/cluster-resource/index.py`) -/

/-- The inbound CloudFormation event for the cluster-resource handler.
`StackId`, `RequestId`, `LogicalResourceId` (and the `ResponseURL`, not
modelled) are always present per the inbound interface; the fields the code
reads with `.get` are `Option`s. -/
structure ClusterEvent where
  StackId : String
  RequestId : String
  LogicalResourceId : String
  RequestType : String
  ResourceProperties : Option PyVal
  OldResourceProperties : Option PyVal
  PhysicalResourceId : Option String

/-- `cfn_send` of the cluster-resource handler: a missing/falsy
`physicalResourceId` argument falls back to the event's `PhysicalResourceId`
and only then to the log stream name ("use previous PhysicalResourceId if
physical resource ID is not specified, otherwise update failures will result
in resource replacement"). -/
def cfn_send_cluster (ev : ClusterEvent) (logStream : String) (responseStatus : String)
    (responseData : PyDict) (physicalResourceId : PyVal) (reason : Option String) :
    CfnResponse :=
  { Status := responseStatus
    Reason := reasonOrDefault reason logStream
    PhysicalResourceId :=
      if pyTruthy physicalResourceId then physicalResourceId
      else match ev.PhysicalResourceId with
           | some p => PyVal.str p
           | Option.none => PyVal.str logStream
    StackId := ev.StackId
    RequestId := ev.RequestId
    LogicalResourceId := ev.LogicalResourceId
    NoEcho := false
    Data := responseData }

/-- Trace of externally visible operations of one cluster-resource
invocation: the boto3 EKS calls (with the waiter configuration where the code
passes one) and each transmitted response. -/
inductive CEv where
  | delete_cluster (name : PyVal)
  | wait_cluster_deleted (name : PyVal)
  | create_cluster (config : PyDict)
  | describe_cluster (name : PyVal)
  | update_cluster_version (name : PyVal) (version : PyVal)
  | wait_cluster_active (name : PyVal) (delay : Nat) (maxAttempts : Nat)
  | send (r : CfnResponse)

/-- Environment behaviour of the EKS service for one invocation: each call
either succeeds (describe returning the response dict) or raises, with the
exception's `str()` message. -/
structure EksOracle where
  delete_cluster : PyVal → Except String Unit
  wait_cluster_deleted : PyVal → Except String Unit
  create_cluster : PyDict → Except String Unit
  describe_cluster : PyVal → Except String PyVal
  update_cluster_version : PyVal → PyVal → Except String Unit
  wait_cluster_active : PyVal → Except String Unit

/-- `new_cluster_name`: `f"cluster-{request_id}"`. -/
def new_cluster_name (request_id : String) : String :=
  "cluster-" ++ request_id

/-- Resolution of the cluster name (lines 53-57): the explicit
`config['name']` if any, else the physical id if truthy, else a fresh name on
Create, else an error. -/
def resolveClusterName (config : PyDict) (physical_id : Option String)
    (request_type request_id : String) : Except PyErr PyVal :=
  let cluster_name := pyGet config "name"
  if isNone cluster_name then
    if optStrTruthy physical_id then Except.ok (pyOfOptStr physical_id)
    else if request_type = "Create" then Except.ok (PyVal.str (new_cluster_name request_id))
    else Except.error (PyErr.exc "unexpected error. cannot determine cluster name")
  else Except.ok cluster_name

/-- `should_replace_cluster` (lines 66-84): replacement is required when the
resolved name differs from the old physical id, or the old and new
`resourcesVpcConfig` differ, or the old and new `roleArn` differ; the old
values are read lazily with `old_config.get`, which raises when `old_config`
is not a mapping. -/
def should_replace_cluster (old_config : PyVal) (physIdPy cluster_name
    resourcesVpcConfig roleArn : PyVal) : Except PyErr Bool :=
  if pyEq physIdPy cluster_name = false then Except.ok true
  else do
    let old_resourcesVpcConfig ← pyGetAttrD old_config "resourcesVpcConfig" PyVal.none
    if pyEq old_resourcesVpcConfig resourcesVpcConfig = false then Except.ok true
    else do
      let old_roleArn ← pyGetAttrD old_config "roleArn" PyVal.none
      if pyEq old_roleArn roleArn = false then Except.ok true
      else Except.ok false

/-- Lines 140-157: after any create / replacement / in-place update (and
also after a no-op update), wait for the cluster to become active (13min
timeout: delay 30s, 26 attempts), describe it, extract the output
attributes, and send the single SUCCESS response. -/
def clusterConvergeReport (ev : ClusterEvent) (eks : EksOracle) (logStream : String)
    (cluster_name2 : PyVal) : Rec CEv Unit := do
  let _ ← callOp (CEv.wait_cluster_active cluster_name2 30 26)
    (eks.wait_cluster_active cluster_name2)
  let descResp ← callOp (CEv.describe_cluster cluster_name2)
    (eks.describe_cluster cluster_name2)
  let cl ← rlift (pyIndex descResp "cluster")
  let nm ← rlift (pyIndex cl "name")
  let ep ← rlift (pyIndex cl "endpoint")
  let arn ← rlift (pyIndex cl "arn")
  let ca ← rlift (pyIndex cl "certificateAuthority")
  let cad ← rlift (pyIndex ca "data")
  let attrs := [("Name", nm), ("Endpoint", ep), ("Arn", arn),
    ("CertificateAuthorityData", cad)]
  emit (CEv.send (cfn_send_cluster ev logStream CFN_SUCCESS attrs cluster_name2
    Option.none))

/-- The body of the cluster-resource `handler`'s `try:` block, as a trace
computation. Each branch of the original ends with its single `cfn_send`
(the Delete branch `return`s right after its send). -/
def clusterTry (ev : ClusterEvent) (eks : EksOracle) (logStream : String) :
    Rec CEv Unit := do
  let props ← rlift (keyOf ev.ResourceProperties "ResourceProperties")
  let old_propsV := ev.OldResourceProperties.getD (PyVal.dict [])
  let configV ← rlift (pyIndex props "Config")
  let config ← rlift (asDict configV)
  let old_config ← rlift (pyGetAttrD old_propsV "Config" (PyVal.dict []))
  let cluster_nameV ← rlift (resolveClusterName config ev.PhysicalResourceId
    ev.RequestType ev.RequestId)
  let config := pySet config "name" cluster_nameV
  let resourcesVpcConfig := pyGet config "resourcesVpcConfig"
  let roleArn := pyGet config "roleArn"
  let version := pyGet config "version"
  let physIdPy := pyOfOptStr ev.PhysicalResourceId
  if ev.RequestType = "Delete" then do
    let _ ← callOp (CEv.delete_cluster cluster_nameV) (eks.delete_cluster cluster_nameV)
    let _ ← callOp (CEv.wait_cluster_deleted cluster_nameV)
      (eks.wait_cluster_deleted cluster_nameV)
    emit (CEv.send (cfn_send_cluster ev logStream CFN_SUCCESS [] cluster_nameV Option.none))
  else do
    let cluster_name2 ←
      if ev.RequestType = "Create" then do
        let _ ← callOp (CEv.create_cluster config) (eks.create_cluster config)
        pure cluster_nameV
      else if ev.RequestType = "Update" then do
        -- physical_id is always defined for "update"
        let stateResp ← callOp (CEv.describe_cluster physIdPy) (eks.describe_cluster physIdPy)
        let current_state ← rlift (pyIndex stateResp "cluster")
        let repl ← rlift (should_replace_cluster old_config physIdPy cluster_nameV
          resourcesVpcConfig roleArn)
        if repl then do
          -- unless we are renaming the cluster, allocate a new cluster name
          let next :=
            if pyEq cluster_nameV physIdPy then
              let n := PyVal.str (new_cluster_name ev.RequestId)
              (n, pySet config "name" n)
            else (cluster_nameV, config)
          let _ ← callOp (CEv.create_cluster next.2) (eks.create_cluster next.2)
          pure next.1
        else do
          -- version change - we can do that without replacement
          let old_version ← rlift (pyGetAttrD old_config "version" PyVal.none)
          if isNone old_version && isNone version then pure cluster_nameV
          else do
            let old_version_actual ← rlift (pyIndex current_state "version")
            if pyEq version old_version_actual = false then
              if isNone version then
                pyRaise (PyErr.exc ("Version cannot be changed from a specific value ("
                  ++ pyStr old_version ++ ") to undefined"))
              else do
                let _ ← callOp (CEv.update_cluster_version cluster_nameV version)
                  (eks.update_cluster_version cluster_nameV version)
                pure cluster_nameV
            else pure cluster_nameV
      else pyRaise (PyErr.exc ("Invalid request type " ++ ev.RequestType))
    -- wait for the cluster to become active (13min timeout)
    clusterConvergeReport ev eks logStream cluster_name2

/-- The cluster-resource `handler`: runs the `try:` body; the bare `except:`
boundary turns any raised exception into one `cfn_error`, i.e. one FAILED
`cfn_send` whose reason is `str(e)`. Returns the full operation trace. -/
def clusterHandler (ev : ClusterEvent) (eks : EksOracle) (logStream : String) :
    List CEv :=
  match clusterTry ev eks logStream with
  | ⟨tr, Except.ok _⟩ => tr
  | ⟨tr, Except.error e⟩ =>
      tr ++ [CEv.send (cfn_send_cluster ev logStream CFN_FAILED [] PyVal.none
        (some (PyErr.str e)))]

/-- The responses transmitted in a cluster-resource trace. -/
def csends (tr : List CEv) : List CfnResponse :=
  tr.filterMap fun e => match e with
    | CEv.send r => some r
    | _ => Option.none

@[simp] theorem csends_nil : csends [] = [] := rfl

@[simp] theorem csends_append (a b : List CEv) :
    csends (a ++ b) = csends a ++ csends b := by
  simp [csends]

@[simp] theorem csends_cons_send (r : CfnResponse) (tr : List CEv) :
    csends (CEv.send r :: tr) = r :: csends tr := rfl

@[simp] theorem csends_cons_delete (n : PyVal) (tr : List CEv) :
    csends (CEv.delete_cluster n :: tr) = csends tr := rfl

@[simp] theorem csends_cons_wait_deleted (n : PyVal) (tr : List CEv) :
    csends (CEv.wait_cluster_deleted n :: tr) = csends tr := rfl

@[simp] theorem csends_cons_create (c : PyDict) (tr : List CEv) :
    csends (CEv.create_cluster c :: tr) = csends tr := rfl

@[simp] theorem csends_cons_describe (n : PyVal) (tr : List CEv) :
    csends (CEv.describe_cluster n :: tr) = csends tr := rfl

@[simp] theorem csends_cons_update_version (n v : PyVal) (tr : List CEv) :
    csends (CEv.update_cluster_version n v :: tr) = csends tr := rfl

@[simp] theorem csends_cons_wait_active (n : PyVal) (d m : Nat) (tr : List CEv) :
    csends (CEv.wait_cluster_active n d m :: tr) = csends tr := rfl

/-! ## Legacy helm-chart handler
(`aws-eks-legacy/lib/helm-chart/index.py`) -/

/-- Scratch directory: `os.environ.get('TEST_OUTDIR', '/tmp')` with the
environment variable unset. -/
def outdir : String := "/tmp"

/-- `os.path.join(outdir, 'kubeconfig')`. -/
def kubeconfigPath : String := "/tmp/kubeconfig"

/-- The inbound CloudFormation event for the helm-chart handler. -/
structure HelmEvent where
  StackId : String
  RequestId : String
  LogicalResourceId : String
  RequestType : String
  ResourceProperties : Option PyVal
  PhysicalResourceId : Option String

/-- `cfn_send` of the legacy helm-chart handler: a missing/falsy
`physicalResourceId` argument falls back directly to the log stream name
(`physicalResourceId or context.log_stream_name`), never to the event's
`PhysicalResourceId`. -/
def cfn_send_helm (ev : HelmEvent) (logStream : String) (responseStatus : String)
    (responseData : PyDict) (physicalResourceId : PyVal) (reason : Option String) :
    CfnResponse :=
  { Status := responseStatus
    Reason := reasonOrDefault reason logStream
    PhysicalResourceId :=
      if pyTruthy physicalResourceId then physicalResourceId else PyVal.str logStream
    StackId := ev.StackId
    RequestId := ev.RequestId
    LogicalResourceId := ev.LogicalResourceId
    NoEcho := false
    Data := responseData }

/-- Trace of externally visible operations of one helm-chart invocation. -/
inductive HEv where
  | update_kubeconfig (clusterName : String)
  | write_values (values : PyVal)
  | run_helm (cmnd : List PyVal)
  | send (r : CfnResponse)

/-- Environment behaviour for one helm-chart invocation: the
`aws eks update-kubeconfig` subprocess, `json.loads` on the `Values`
property, the helm subprocess (returning its captured output or failing with
the captured output), and the `uuid4()` drawn for a Create. -/
structure HelmOracle where
  update_kubeconfig : String → Except String Unit
  json_loads : PyVal → Except String PyVal
  check_output : List PyVal → Except String String
  uuid4 : String

/-- The argv built by the legacy `helm` function (lines 84-100): flags are
appended only for non-`None` parameters, `upgrade` adds `--install`, and the
kubeconfig path is always appended last. -/
def helm_cmnd (verb : String) (release chart repo file ns version : PyVal) :
    List PyVal :=
  [PyVal.str "helm", PyVal.str verb, release]
    ++ (if isNone chart then [] else [chart])
    ++ (if verb = "upgrade" then [PyVal.str "--install"] else [])
    ++ (if isNone repo then [] else [PyVal.str "--repo", repo])
    ++ (if isNone file then [] else [PyVal.str "--values", file])
    ++ (if isNone version then [] else [PyVal.str "--version", version])
    ++ (if isNone ns then [] else [PyVal.str "--namespace", ns])
    ++ [PyVal.str "--kubeconfig", PyVal.str kubeconfigPath]

/-- Lines 66-76: "if we are creating a new resource, allocate a physical id
for it; otherwise, we expect physical id to be relayed by cloudformation" —
Create mints `{cluster_name}/{uuid4()}`; a non-Create without a truthy
physical id is an invalid request (one FAILED send); otherwise one SUCCESS
send relaying the physical id. -/
def helmReportPhysicalId (ev : HelmEvent) (o : HelmOracle) (logStream : String)
    (cluster_name : String) : Rec HEv Unit :=
  if ev.RequestType = "Create" then
    emit (HEv.send (cfn_send_helm ev logStream CFN_SUCCESS []
      (PyVal.str (cluster_name ++ "/" ++ o.uuid4)) Option.none))
  else if optStrTruthy ev.PhysicalResourceId then
    emit (HEv.send (cfn_send_helm ev logStream CFN_SUCCESS []
      (pyOfOptStr ev.PhysicalResourceId) Option.none))
  else
    emit (HEv.send (cfn_send_helm ev logStream CFN_FAILED [] PyVal.none
      (some ("invalid request: request type is '" ++ ev.RequestType
        ++ "' but 'PhysicalResourceId' is not defined"))))

/-- The body of the helm-chart `handler`'s `try:` block. The legacy `helm`
function re-raises a failed subprocess as `Exception(exc.output)`; in the
Delete branch that exception is caught locally and only logged. -/
def helmTry (ev : HelmEvent) (cluster_name_env : Option String) (o : HelmOracle)
    (logStream : String) : Rec HEv Unit := do
  let props ← rlift (keyOf ev.ResourceProperties "ResourceProperties")
  let release ← rlift (pyIndex props "Release")
  let chart ← rlift (pyIndex props "Chart")
  let version ← rlift (pyGetAttrD props "Version" PyVal.none)
  let ns ← rlift (pyGetAttrD props "Namespace" PyVal.none)
  let repository ← rlift (pyGetAttrD props "Repository" PyVal.none)
  let values_text ← rlift (pyGetAttrD props "Values" PyVal.none)
  match cluster_name_env with
  | Option.none =>
      -- cfn_error("CLUSTER_NAME is missing in environment"); return
      emit (HEv.send (cfn_send_helm ev logStream CFN_FAILED [] PyVal.none
        (some "CLUSTER_NAME is missing in environment")))
  | some cluster_name => do
      let _ ← callOp (HEv.update_kubeconfig cluster_name)
        (o.update_kubeconfig cluster_name)
      -- Write out the values to a file and include them with the install and upgrade
      let values_file ←
        if ev.RequestType ≠ "Delete" && !isNone values_text then do
          let values ← rlift ((o.json_loads values_text).mapError PyErr.exc)
          let _ ← emit (HEv.write_values values)
          pure (PyVal.str (outdir ++ "/values.yaml"))
        else pure PyVal.none
      let _ ←
        if ev.RequestType = "Create" || ev.RequestType = "Update" then do
          let cmnd := helm_cmnd "upgrade" release chart repository values_file ns version
          let _ ← callOp (HEv.run_helm cmnd) (o.check_output cmnd)
          pure ()
        else if ev.RequestType = "Delete" then do
          let cmnd := helm_cmnd "uninstall" release PyVal.none PyVal.none PyVal.none
            ns PyVal.none
          let _ ← emit (HEv.run_helm cmnd)
          -- try: helm('uninstall', ...) except Exception as e:
          --   logger.info(f"delete error: {e}") — any failure is only logged
          match o.check_output cmnd with
          | Except.ok _ => pure ()
          | Except.error _ => pure ()
        else pure ()
      helmReportPhysicalId ev o logStream cluster_name

/-- The helm-chart `handler`: runs the `try:` body; `except KeyError` wraps
the missing key into an "invalid request" reason, `except Exception` uses
`str(e)` directly; both send exactly one FAILED response. -/
def helmHandler (ev : HelmEvent) (cluster_name_env : Option String) (o : HelmOracle)
    (logStream : String) : List HEv :=
  match helmTry ev cluster_name_env o logStream with
  | ⟨tr, Except.ok _⟩ => tr
  | ⟨tr, Except.error (PyErr.keyError k)⟩ =>
      tr ++ [HEv.send (cfn_send_helm ev logStream CFN_FAILED [] PyVal.none
        (some ("invalid request. Missing '" ++ PyErr.str (PyErr.keyError k) ++ "'")))]
  | ⟨tr, Except.error (PyErr.exc m)⟩ =>
      tr ++ [HEv.send (cfn_send_helm ev logStream CFN_FAILED [] PyVal.none (some m))]

/-- The responses transmitted in a helm-chart trace. -/
def hsends (tr : List HEv) : List CfnResponse :=
  tr.filterMap fun e => match e with
    | HEv.send r => some r
    | _ => Option.none

@[simp] theorem hsends_nil : hsends [] = [] := rfl

@[simp] theorem hsends_append (a b : List HEv) :
    hsends (a ++ b) = hsends a ++ hsends b := by
  simp [hsends]

@[simp] theorem hsends_cons_send (r : CfnResponse) (tr : List HEv) :
    hsends (HEv.send r :: tr) = r :: hsends tr := rfl

@[simp] theorem hsends_cons_kubeconfig (n : String) (tr : List HEv) :
    hsends (HEv.update_kubeconfig n :: tr) = hsends tr := rfl

@[simp] theorem hsends_cons_values (v : PyVal) (tr : List HEv) :
    hsends (HEv.write_values v :: tr) = hsends tr := rfl

@[simp] theorem hsends_cons_helm (c : List PyVal) (tr : List HEv) :
    hsends (HEv.run_helm c :: tr) = hsends tr := rfl

/-! ## Retrying command runner
(`aws-eks/lib/kubectl-handler/helm/__init__.py`, lines 85-98) -/

/-- One `subprocess.check_output` attempt: captured output on exit 0, or a
`CalledProcessError` carrying the captured output. -/
inductive CmdResult where
  | ok (output : String)
  | fail (output : String)

/-- `needle` occurs as a contiguous run inside `hay`. -/
def listContainsSub (needle : List Char) : List Char → Bool
  | [] => needle.isEmpty
  | c :: rest => needle.isPrefixOf (c :: rest) || listContainsSub needle rest

/-- `b'Broken pipe' in output`: the transient failure signature. -/
def brokenPipe (output : String) : Bool :=
  listContainsSub "Broken pipe".toList output.toList

/-- Result of the retry loop: success with the attempt number that
succeeded, an immediately re-raised non-transient failure carrying the
captured output, or exhaustion of the attempt budget. -/
inductive HelmRunResult where
  | success (output : String) (attempt : Nat)
  | commandError (output : String)
  | exhausted (message : String)
deriving DecidableEq, Repr

/-- `maxAttempts = 3` -/
def maxAttempts : Nat := 3

/-- The `while retry > 0` loop: `run n` is the outcome of the `n`-th
`check_output` call (1-based); a failure whose output lacks the transient
signature is re-raised at once; a transient failure decrements the budget;
a loop exit raises with the last captured output. -/
def helmAttempt (run : Nat → CmdResult) (attempt : Nat) (lastOutput : String) :
    Nat → HelmRunResult
  | 0 => HelmRunResult.exhausted ("Operation failed after " ++ toString maxAttempts
      ++ " attempts: " ++ lastOutput)
  | retry + 1 =>
      match run attempt with
      | CmdResult.ok output => HelmRunResult.success output attempt
      | CmdResult.fail output =>
          if brokenPipe output then helmAttempt run (attempt + 1) output retry
          else HelmRunResult.commandError output

/-- The whole retry loop with its fixed budget of `maxAttempts = 3` total
attempts. -/
def helmRun (run : Nat → CmdResult) : HelmRunResult :=
  helmAttempt run 1 "" maxAttempts

/-! ## Helper lemmas -/

theorem pyGet_pySet_ne (d : PyDict) (k : String) (v : PyVal) (k' : String)
    (h : k ≠ k') : pyGet (pySet d k v) k' = pyGet d k' := by
  induction d with
  | nil => simp [pySet, pyGet, pyLookup, h]
  | cons p rest ih =>
      obtain ⟨k0, v0⟩ := p
      by_cases hk : k0 = k
      · subst hk
        simp [pySet, pyGet, pyLookup, h]
      · simp only [pySet, if_neg hk]
        by_cases hk' : k0 = k'
        · simp [pyGet, pyLookup, hk']
        · simpa [pyGet, pyLookup, hk'] using ih

@[simp] theorem pyEq_str_self (s : String) : pyEq (PyVal.str s) (PyVal.str s) = true := by
  simp [pyEq, normalize, pyBeq]

theorem pyEq_str_iff (a b : String) : pyEq (PyVal.str a) (PyVal.str b) = (a == b) := by
  simp [pyEq, normalize, pyBeq]

@[simp] theorem pyEq_none_none : pyEq PyVal.none PyVal.none = true := rfl

@[simp] theorem pyEq_none_str (s : String) : pyEq PyVal.none (PyVal.str s) = false := rfl

@[simp] theorem pyEq_str_none (s : String) : pyEq (PyVal.str s) PyVal.none = false := rfl

@[simp] theorem pyGetAttrD_dict_none (kvs : PyDict) (k : String) :
    pyGetAttrD (PyVal.dict kvs) k PyVal.none = Except.ok (pyGet kvs k) := rfl

theorem pyGetAttrD_dict (kvs : PyDict) (k : String) (dflt : PyVal) :
    pyGetAttrD (PyVal.dict kvs) k dflt = Except.ok ((pyLookup kvs k).getD dflt) := rfl

theorem pyIndex_dict (kvs : PyDict) (k : String) :
    pyIndex (PyVal.dict kvs) k
      = (match pyLookup kvs k with
         | some w => Except.ok w
         | Option.none => Except.error (PyErr.keyError k)) := rfl

@[simp] theorem except_bind_ok (a : α) (f : α → Except ε β) :
    (Except.ok a >>= f) = f a := rfl

@[simp] theorem except_bind_err (e : ε) (f : α → Except ε β) :
    ((Except.error e : Except ε α) >>= f) = Except.error e := rfl

/-! ## C1: the Replacement Evaluator's decision -/

/-- C1: for an Update, `should_replace_cluster` decides that replacement is
required if and only if at least one of these differs under Python equality
(structural, key order irrelevant): the resolved cluster name vs the old
physical id, the old vs new `resourcesVpcConfig`, or the old vs new
`roleArn`.  In particular, for an in-place update (resolved name taken from
the physical id because the new config carries no explicit name) whose old
and new configs agree on the immutable fields — e.g. configs equal except
the mutable `version` field — the decision is "not required". -/
theorem C1_replacement_decision :
    (∀ (old_config : PyDict) (physIdPy cluster_name resourcesVpcConfig roleArn : PyVal),
        should_replace_cluster (PyVal.dict old_config) physIdPy cluster_name
            resourcesVpcConfig roleArn = Except.ok true
          ↔ (pyEq physIdPy cluster_name = false
             ∨ pyEq (pyGet old_config "resourcesVpcConfig") resourcesVpcConfig = false
             ∨ pyEq (pyGet old_config "roleArn") roleArn = false))
  ∧ (∀ (old_config config : PyDict) (p request_id : String),
        pyGet config "name" = PyVal.none → p ≠ "" →
        pyEq (pyGet old_config "resourcesVpcConfig") (pyGet config "resourcesVpcConfig")
          = true →
        pyEq (pyGet old_config "roleArn") (pyGet config "roleArn") = true →
        resolveClusterName config (some p) "Update" request_id
            = Except.ok (PyVal.str p)
          ∧ should_replace_cluster (PyVal.dict old_config) (pyOfOptStr (some p))
              (PyVal.str p)
              (pyGet (pySet config "name" (PyVal.str p)) "resourcesVpcConfig")
              (pyGet (pySet config "name" (PyVal.str p)) "roleArn")
            = Except.ok false) := by
  constructor
  · intro old_config physIdPy cluster_name resourcesVpcConfig roleArn
    unfold should_replace_cluster
    cases h1 : pyEq physIdPy cluster_name <;>
      cases h2 : pyEq (pyGet old_config "resourcesVpcConfig") resourcesVpcConfig <;>
      cases h3 : pyEq (pyGet old_config "roleArn") roleArn <;>
      simp [h1, h2, h3]
  · intro old_config config p request_id hname hp hvpc hrole
    have hv : pyGet (pySet config "name" (PyVal.str p)) "resourcesVpcConfig"
        = pyGet config "resourcesVpcConfig" :=
      pyGet_pySet_ne config "name" (PyVal.str p) "resourcesVpcConfig" (by decide)
    have hr : pyGet (pySet config "name" (PyVal.str p)) "roleArn"
        = pyGet config "roleArn" :=
      pyGet_pySet_ne config "name" (PyVal.str p) "roleArn" (by decide)
    constructor
    · simp [resolveClusterName, hname, isNone, optStrTruthy, hp, pyOfOptStr]
    · unfold should_replace_cluster
      simp [pyOfOptStr, hv, hr, hvpc, hrole]

/-- Witness for C1 at concrete inputs. The old and new configs carry the same
`resourcesVpcConfig` mapping with its keys (and nested keys) in different
orders and differ only in `version`; the decision is "not required". -/
theorem C1_replacement_decision_witness :
    resolveClusterName
        [("resourcesVpcConfig",
            PyVal.dict [("securityGroupIds", PyVal.list [PyVal.str "sg-1"]),
                        ("subnetIds", PyVal.list [PyVal.str "s-1", PyVal.str "s-2"])]),
         ("roleArn", PyVal.str "arn:aws:iam::1:role/eks"),
         ("version", PyVal.str "1.21")]
        (some "prod") "Update" "req-1" = Except.ok (PyVal.str "prod")
    ∧ should_replace_cluster
        (PyVal.dict
          [("version", PyVal.str "1.20"),
           ("roleArn", PyVal.str "arn:aws:iam::1:role/eks"),
           ("resourcesVpcConfig",
              PyVal.dict [("subnetIds", PyVal.list [PyVal.str "s-1", PyVal.str "s-2"]),
                          ("securityGroupIds", PyVal.list [PyVal.str "sg-1"])])])
        (pyOfOptStr (some "prod")) (PyVal.str "prod")
        (pyGet (pySet
          [("resourcesVpcConfig",
              PyVal.dict [("securityGroupIds", PyVal.list [PyVal.str "sg-1"]),
                          ("subnetIds", PyVal.list [PyVal.str "s-1", PyVal.str "s-2"])]),
           ("roleArn", PyVal.str "arn:aws:iam::1:role/eks"),
           ("version", PyVal.str "1.21")] "name" (PyVal.str "prod")) "resourcesVpcConfig")
        (pyGet (pySet
          [("resourcesVpcConfig",
              PyVal.dict [("securityGroupIds", PyVal.list [PyVal.str "sg-1"]),
                          ("subnetIds", PyVal.list [PyVal.str "s-1", PyVal.str "s-2"])]),
           ("roleArn", PyVal.str "arn:aws:iam::1:role/eks"),
           ("version", PyVal.str "1.21")] "name" (PyVal.str "prod")) "roleArn")
      = Except.ok false :=
  C1_replacement_decision.2
    [("version", PyVal.str "1.20"),
     ("roleArn", PyVal.str "arn:aws:iam::1:role/eks"),
     ("resourcesVpcConfig",
        PyVal.dict [("subnetIds", PyVal.list [PyVal.str "s-1", PyVal.str "s-2"]),
                    ("securityGroupIds", PyVal.list [PyVal.str "sg-1"])])]
    [("resourcesVpcConfig",
        PyVal.dict [("securityGroupIds", PyVal.list [PyVal.str "sg-1"]),
                    ("subnetIds", PyVal.list [PyVal.str "s-1", PyVal.str "s-2"])]),
     ("roleArn", PyVal.str "arn:aws:iam::1:role/eks"),
     ("version", PyVal.str "1.21")]
    "prod" "req-1" rfl (by decide) (by decide) (by decide)

/-! ## C6: the retrying command runner -/

/-- C6: the command runner retries only failures whose output contains the
transient `Broken pipe` signature, within a budget of 3 total attempts: two
transient failures followed by a success yield success on attempt 3; a
non-transient failure is re-raised immediately with the captured output and
no retry; three transient failures exhaust the budget and raise. -/
theorem C6_command_runner_retry :
    (∀ (run : Nat → CmdResult) (o1 o2 o3 : String),
        run 1 = CmdResult.fail o1 → brokenPipe o1 = true →
        run 2 = CmdResult.fail o2 → brokenPipe o2 = true →
        run 3 = CmdResult.ok o3 →
        helmRun run = HelmRunResult.success o3 3)
  ∧ (∀ (run : Nat → CmdResult) (o : String),
        run 1 = CmdResult.fail o → brokenPipe o = false →
        helmRun run = HelmRunResult.commandError o)
  ∧ (∀ (run : Nat → CmdResult) (o1 o2 o3 : String),
        run 1 = CmdResult.fail o1 → brokenPipe o1 = true →
        run 2 = CmdResult.fail o2 → brokenPipe o2 = true →
        run 3 = CmdResult.fail o3 → brokenPipe o3 = true →
        helmRun run
          = HelmRunResult.exhausted ("Operation failed after 3 attempts: " ++ o3)) := by
  refine ⟨?_, ?_, ?_⟩
  · intro run o1 o2 o3 h1 hb1 h2 hb2 h3
    simp [helmRun, maxAttempts, helmAttempt, h1, hb1, h2, hb2, h3]
  · intro run o h1 hb1
    simp [helmRun, maxAttempts, helmAttempt, h1, hb1]
  · intro run o1 o2 o3 h1 hb1 h2 hb2 h3 hb3
    have hm : "Operation failed after " ++ toString (3 : Nat) ++ " attempts: "
        = "Operation failed after 3 attempts: " := by decide
    simp [helmRun, maxAttempts, helmAttempt, h1, hb1, h2, hb2, h3, hb3]
    rw [hm]

/-- Witness for C6 at three concrete command behaviours. -/
theorem C6_command_runner_retry_witness :
    helmRun (fun n => if n < 3 then CmdResult.fail "write: Broken pipe" else
        CmdResult.ok "RELEASED")
      = HelmRunResult.success "RELEASED" 3
    ∧ helmRun (fun _ => CmdResult.fail "Error: chart not found")
      = HelmRunResult.commandError "Error: chart not found"
    ∧ helmRun (fun _ => CmdResult.fail "write: Broken pipe")
      = HelmRunResult.exhausted
          ("Operation failed after 3 attempts: " ++ "write: Broken pipe") :=
  ⟨C6_command_runner_retry.1
      (fun n => if n < 3 then CmdResult.fail "write: Broken pipe" else
        CmdResult.ok "RELEASED")
      "write: Broken pipe" "write: Broken pipe" "RELEASED" rfl (by decide) rfl
      (by decide) rfl,
   C6_command_runner_retry.2.1 (fun _ => CmdResult.fail "Error: chart not found")
      "Error: chart not found" rfl (by decide),
   C6_command_runner_retry.2.2 (fun _ => CmdResult.fail "write: Broken pipe")
      "write: Broken pipe" "write: Broken pipe" "write: Broken pipe" rfl (by decide)
      rfl (by decide) rfl (by decide)⟩

/-! ## C8: default physical id in the response payload -/

/-- C8 counterexample: the legacy helm-chart `cfn_send`, given no physical id
from the operation, falls back to the log stream name even though the inbound
event carries `PhysicalResourceId = "prod"` — not to the request's physical
id as claimed. -/
theorem C8_default_physical_id_counterexample :
    (cfn_send_helm
        ⟨"stack-1", "req-1", "MyChart", "Update", some (PyVal.dict []), some "prod"⟩
        "log-stream-1" CFN_FAILED [] PyVal.none (some "boom")).PhysicalResourceId
      = PyVal.str "log-stream-1"
    ∧ PyVal.str "log-stream-1" ≠ PyVal.str "prod" := by
  constructor
  · rfl
  · simp

/-- C8 amended: when the operation produced no physical id (the
`physicalResourceId` argument is `None`), the cluster-resource `cfn_send`
defaults the payload's `PhysicalResourceId` to the inbound request's existing
`PhysicalResourceId` (log stream name only if the request has none), whereas
the legacy helm-chart `cfn_send` defaults directly to the log stream name,
ignoring the request's physical id. -/
theorem C8_default_physical_id (cev : ClusterEvent) (hev : HelmEvent)
    (logStream responseStatus : String) (responseData : PyDict)
    (reason : Option String) :
    (cfn_send_cluster cev logStream responseStatus responseData PyVal.none
        reason).PhysicalResourceId
      = (match cev.PhysicalResourceId with
         | some p => PyVal.str p
         | Option.none => PyVal.str logStream)
    ∧ (cfn_send_helm hev logStream responseStatus responseData PyVal.none
        reason).PhysicalResourceId = PyVal.str logStream := by
  constructor <;> simp [cfn_send_cluster, cfn_send_helm, pyTruthy]

/-! ## C9: deterministic Create name derivation -/

/-- C9: for a Create with no explicit `name` in the desired config and no
prior physical id, the derived cluster name is `cluster-{request_id}` — a
deterministic function of the request token alone — so classifying the same
Create request twice (even with otherwise different configs lacking a name)
derives the same name both times. -/
theorem C9_create_name_deterministic (c1 c2 : PyDict) (request_id : String)
    (h1 : pyGet c1 "name" = PyVal.none) (h2 : pyGet c2 "name" = PyVal.none) :
    resolveClusterName c1 Option.none "Create" request_id
      = Except.ok (PyVal.str (new_cluster_name request_id))
    ∧ resolveClusterName c1 Option.none "Create" request_id
      = resolveClusterName c2 Option.none "Create" request_id := by
  constructor
  · simp [resolveClusterName, h1, isNone, optStrTruthy]
  · simp [resolveClusterName, h1, h2, isNone, optStrTruthy]

/-- Witness for C9 at two concrete Create configurations. -/
theorem C9_create_name_deterministic_witness :
    resolveClusterName [("version", PyVal.str "1.21")] Option.none "Create" "req-42"
      = Except.ok (PyVal.str (new_cluster_name "req-42"))
    ∧ resolveClusterName [("version", PyVal.str "1.21")] Option.none "Create" "req-42"
      = resolveClusterName [] Option.none "Create" "req-42" :=
  C9_create_name_deterministic [("version", PyVal.str "1.21")] [] "req-42" rfl rfl

theorem string_append_ne_empty (a b : String) (h : a ≠ "") : a ++ b ≠ "" := by
  cases a with | mk da =>
  cases b with | mk db =>
  intro hc
  apply h
  have hd : da ++ db = ([] : List Char) := congrArg String.data hc
  rcases List.append_eq_nil.mp hd with ⟨h1, _⟩
  rw [h1]

/-! ## C5: unsetting a pinned version is rejected -/

/-- C5: an Update that requires no replacement (in-place: no explicit name,
identical immutable fields) and asks to change `version` from a pinned value
to unspecified — while the cluster's actual version is some concrete value —
raises "Version cannot be changed from a specific value (...) to undefined";
the handler sends exactly one FAILED response whose `PhysicalResourceId` is
the request's prior physical id, and issues no update and no create
operation (the trace holds only the initial describe). -/
theorem C5_unset_pinned_version (ev : ClusterEvent) (eks : EksOracle)
    (logStream p ov av : String) (st : PyVal)
    (hrt : ev.RequestType = "Update")
    (hprops : ev.ResourceProperties = some (PyVal.dict [("Config", PyVal.dict [])]))
    (hold : ev.OldResourceProperties
      = some (PyVal.dict [("Config", PyVal.dict [("version", PyVal.str ov)])]))
    (hpid : ev.PhysicalResourceId = some p) (hp : p ≠ "")
    (hdesc : eks.describe_cluster (PyVal.str p)
      = Except.ok (PyVal.dict [("cluster", st)]))
    (hver : pyIndex st "version" = Except.ok (PyVal.str av)) :
    clusterHandler ev eks logStream
      = [CEv.describe_cluster (PyVal.str p),
         CEv.send (cfn_send_cluster ev logStream CFN_FAILED [] PyVal.none
           (some ("Version cannot be changed from a specific value ("
             ++ ov ++ ") to undefined")))]
    ∧ (cfn_send_cluster ev logStream CFN_FAILED [] PyVal.none
        (some ("Version cannot be changed from a specific value ("
          ++ ov ++ ") to undefined"))).Status = CFN_FAILED
    ∧ (cfn_send_cluster ev logStream CFN_FAILED [] PyVal.none
        (some ("Version cannot be changed from a specific value ("
          ++ ov ++ ") to undefined"))).PhysicalResourceId = PyVal.str p
    ∧ (cfn_send_cluster ev logStream CFN_FAILED [] PyVal.none
        (some ("Version cannot be changed from a specific value ("
          ++ ov ++ ") to undefined"))).Reason
      = "Version cannot be changed from a specific value (" ++ ov ++ ") to undefined" := by
  have hne : "Version cannot be changed from a specific value ("
      ++ ov ++ ") to undefined" ≠ "" := by
    have h1 : "Version cannot be changed from a specific value (" ++ ov ≠ "" :=
      string_append_ne_empty _ _ (by decide)
    exact string_append_ne_empty _ _ h1
  refine ⟨?_, rfl, ?_, ?_⟩
  · unfold clusterHandler clusterTry clusterConvergeReport
    simp [hprops, hold, hpid, hrt, hdesc, hver, keyOf, pyIndex_dict, pyLookup,
      pyGetAttrD_dict, asDict, resolveClusterName, pyGet, pySet, isNone,
      optStrTruthy, hp, pyOfOptStr, should_replace_cluster, pyStr, PyErr.str]
  · simp [cfn_send_cluster, pyTruthy, hpid]
  · simp [cfn_send_cluster, reasonOrDefault, hne]

/-- Witness for C5 at a fully concrete event and EKS behaviour. -/
theorem C5_unset_pinned_version_witness :
    clusterHandler
        ⟨"stack-1", "req-1", "Cluster", "Update",
         some (PyVal.dict [("Config", PyVal.dict [])]),
         some (PyVal.dict [("Config", PyVal.dict [("version", PyVal.str "1.20")])]),
         some "prod"⟩
        ⟨fun _ => Except.ok (), fun _ => Except.ok (), fun _ => Except.ok (),
         fun _ => Except.ok (PyVal.dict
           [("cluster", PyVal.dict [("version", PyVal.str "1.20")])]),
         fun _ _ => Except.ok (), fun _ => Except.ok ()⟩
        "log-stream-1"
      = [CEv.describe_cluster (PyVal.str "prod"),
         CEv.send (cfn_send_cluster
           ⟨"stack-1", "req-1", "Cluster", "Update",
            some (PyVal.dict [("Config", PyVal.dict [])]),
            some (PyVal.dict [("Config", PyVal.dict [("version", PyVal.str "1.20")])]),
            some "prod"⟩
           "log-stream-1" CFN_FAILED [] PyVal.none
           (some ("Version cannot be changed from a specific value ("
             ++ "1.20" ++ ") to undefined")))] :=
  (C5_unset_pinned_version _ _ "log-stream-1" "prod" "1.20" "1.20"
    (PyVal.dict [("version", PyVal.str "1.20")])
    rfl rfl rfl rfl (by decide) rfl rfl).1

/-! ## C7: in-place version update -/

/-- C7 counterexample: an Update whose old and new configs are identical —
no mutable field changed between them (both pin `version = "1.20"`) — but
whose cluster currently reports version `"1.19"`: the executor still issues
`update_cluster_version`, contradicting the claim that when no mutable field
changed, no create or update operation is issued at all. (The code diffs the
desired version against the cluster's *actual* version from `describe`, not
against the previous configuration.) -/
theorem C7_version_update_counterexample :
    clusterHandler
        ⟨"stack-1", "req-1", "Cluster", "Update",
         some (PyVal.dict [("Config", PyVal.dict [("version", PyVal.str "1.20")])]),
         some (PyVal.dict [("Config", PyVal.dict [("version", PyVal.str "1.20")])]),
         some "prod"⟩
        ⟨fun _ => Except.ok (), fun _ => Except.ok (), fun _ => Except.ok (),
         fun _ => Except.ok (PyVal.dict [("cluster", PyVal.dict
           [("name", PyVal.str "prod"), ("endpoint", PyVal.str "https://eks.example"),
            ("arn", PyVal.str "arn:cluster"),
            ("certificateAuthority", PyVal.dict [("data", PyVal.str "CA")]),
            ("version", PyVal.str "1.19")])]),
         fun _ _ => Except.ok (), fun _ => Except.ok ()⟩
        "log-stream-1"
      = [CEv.describe_cluster (PyVal.str "prod"),
         CEv.update_cluster_version (PyVal.str "prod") (PyVal.str "1.20"),
         CEv.wait_cluster_active (PyVal.str "prod") 30 26,
         CEv.describe_cluster (PyVal.str "prod"),
         CEv.send
           { Status := CFN_SUCCESS
             Reason := "See the details in CloudWatch Log Stream: log-stream-1"
             PhysicalResourceId := PyVal.str "prod"
             StackId := "stack-1"
             RequestId := "req-1"
             LogicalResourceId := "Cluster"
             NoEcho := false
             Data := [("Name", PyVal.str "prod"),
                      ("Endpoint", PyVal.str "https://eks.example"),
                      ("Arn", PyVal.str "arn:cluster"),
                      ("CertificateAuthorityData", PyVal.str "CA")] }] := by
  rfl

/-- C7 amended: for an in-place Update (no explicit name, immutable fields
unchanged), (1) when the desired version differs from the cluster's actual
version, the executor issues only the narrow `update_cluster_version` — never
a create — and reports Success with the `PhysicalResourceId` unchanged
(scenario C: `"1.20"` → `"1.21"` with actual `"1.20"`); no create or update
operation is issued when (2) old and new versions are both unspecified, or
(3) the desired version equals the cluster's current actual version; but when
old and new configs agree while differing from the actual version, the narrow
update is still issued (see the counterexample). -/
theorem C7_version_update_amended :
    (∀ (ev : ClusterEvent) (eks : EksOracle) (logStream p over nver av : String)
        (nmv epv arnv cadv : PyVal),
        ev.RequestType = "Update" →
        ev.ResourceProperties
          = some (PyVal.dict [("Config", PyVal.dict [("version", PyVal.str nver)])]) →
        ev.OldResourceProperties
          = some (PyVal.dict [("Config", PyVal.dict [("version", PyVal.str over)])]) →
        ev.PhysicalResourceId = some p → p ≠ "" → nver ≠ av →
        eks.describe_cluster (PyVal.str p)
          = Except.ok (PyVal.dict [("cluster", PyVal.dict
              [("name", nmv), ("endpoint", epv), ("arn", arnv),
               ("certificateAuthority", PyVal.dict [("data", cadv)]),
               ("version", PyVal.str av)])]) →
        eks.update_cluster_version (PyVal.str p) (PyVal.str nver) = Except.ok () →
        eks.wait_cluster_active (PyVal.str p) = Except.ok () →
        clusterHandler ev eks logStream
          = [CEv.describe_cluster (PyVal.str p),
             CEv.update_cluster_version (PyVal.str p) (PyVal.str nver),
             CEv.wait_cluster_active (PyVal.str p) 30 26,
             CEv.describe_cluster (PyVal.str p),
             CEv.send (cfn_send_cluster ev logStream CFN_SUCCESS
               [("Name", nmv), ("Endpoint", epv), ("Arn", arnv),
                ("CertificateAuthorityData", cadv)] (PyVal.str p) Option.none)]
          ∧ (cfn_send_cluster ev logStream CFN_SUCCESS
               [("Name", nmv), ("Endpoint", epv), ("Arn", arnv),
                ("CertificateAuthorityData", cadv)] (PyVal.str p)
               Option.none).PhysicalResourceId = PyVal.str p
          ∧ (cfn_send_cluster ev logStream CFN_SUCCESS
               [("Name", nmv), ("Endpoint", epv), ("Arn", arnv),
                ("CertificateAuthorityData", cadv)] (PyVal.str p)
               Option.none).Status = CFN_SUCCESS)
  ∧ (∀ (ev : ClusterEvent) (eks : EksOracle) (logStream p av : String)
        (nmv epv arnv cadv : PyVal),
        ev.RequestType = "Update" →
        ev.ResourceProperties = some (PyVal.dict [("Config", PyVal.dict [])]) →
        ev.OldResourceProperties = some (PyVal.dict [("Config", PyVal.dict [])]) →
        ev.PhysicalResourceId = some p → p ≠ "" →
        eks.describe_cluster (PyVal.str p)
          = Except.ok (PyVal.dict [("cluster", PyVal.dict
              [("name", nmv), ("endpoint", epv), ("arn", arnv),
               ("certificateAuthority", PyVal.dict [("data", cadv)]),
               ("version", PyVal.str av)])]) →
        eks.wait_cluster_active (PyVal.str p) = Except.ok () →
        clusterHandler ev eks logStream
          = [CEv.describe_cluster (PyVal.str p),
             CEv.wait_cluster_active (PyVal.str p) 30 26,
             CEv.describe_cluster (PyVal.str p),
             CEv.send (cfn_send_cluster ev logStream CFN_SUCCESS
               [("Name", nmv), ("Endpoint", epv), ("Arn", arnv),
                ("CertificateAuthorityData", cadv)] (PyVal.str p) Option.none)])
  ∧ (∀ (ev : ClusterEvent) (eks : EksOracle) (logStream p over nver : String)
        (nmv epv arnv cadv : PyVal),
        ev.RequestType = "Update" →
        ev.ResourceProperties
          = some (PyVal.dict [("Config", PyVal.dict [("version", PyVal.str nver)])]) →
        ev.OldResourceProperties
          = some (PyVal.dict [("Config", PyVal.dict [("version", PyVal.str over)])]) →
        ev.PhysicalResourceId = some p → p ≠ "" →
        eks.describe_cluster (PyVal.str p)
          = Except.ok (PyVal.dict [("cluster", PyVal.dict
              [("name", nmv), ("endpoint", epv), ("arn", arnv),
               ("certificateAuthority", PyVal.dict [("data", cadv)]),
               ("version", PyVal.str nver)])]) →
        eks.wait_cluster_active (PyVal.str p) = Except.ok () →
        clusterHandler ev eks logStream
          = [CEv.describe_cluster (PyVal.str p),
             CEv.wait_cluster_active (PyVal.str p) 30 26,
             CEv.describe_cluster (PyVal.str p),
             CEv.send (cfn_send_cluster ev logStream CFN_SUCCESS
               [("Name", nmv), ("Endpoint", epv), ("Arn", arnv),
                ("CertificateAuthorityData", cadv)] (PyVal.str p) Option.none)]) := by
  refine ⟨?_, ?_, ?_⟩
  · intro ev eks logStream p over nver av nmv epv arnv cadv hrt hprops hold hpid hp
      hne hdesc hupd hwait
    refine ⟨?_, ?_, rfl⟩
    · unfold clusterHandler clusterTry clusterConvergeReport
      simp [hprops, hold, hpid, hrt, hdesc, hupd, hwait, keyOf, pyIndex_dict,
        pyLookup, pyGetAttrD_dict, asDict, resolveClusterName, pyGet, pySet,
        isNone, optStrTruthy, hp, pyOfOptStr, should_replace_cluster,
        pyEq_str_iff, beq_eq_false_iff_ne, hne]
    · simp [cfn_send_cluster, pyTruthy, hp]
  · intro ev eks logStream p av nmv epv arnv cadv hrt hprops hold hpid hp hdesc hwait
    unfold clusterHandler clusterTry clusterConvergeReport
    simp [hprops, hold, hpid, hrt, hdesc, hwait, keyOf, pyIndex_dict,
      pyLookup, pyGetAttrD_dict, asDict, resolveClusterName, pyGet, pySet,
      isNone, optStrTruthy, hp, pyOfOptStr, should_replace_cluster]
  · intro ev eks logStream p over nver nmv epv arnv cadv hrt hprops hold hpid hp
      hdesc hwait
    unfold clusterHandler clusterTry clusterConvergeReport
    simp [hprops, hold, hpid, hrt, hdesc, hwait, keyOf, pyIndex_dict,
      pyLookup, pyGetAttrD_dict, asDict, resolveClusterName, pyGet, pySet,
      isNone, optStrTruthy, hp, pyOfOptStr, should_replace_cluster, pyEq_str_iff]

/-- Witness for C7 (amended) at scenario C concretely: version `"1.20"` →
`"1.21"`, actual `"1.20"`, name unchanged. -/
theorem C7_version_update_amended_witness :
    clusterHandler
        ⟨"stack-1", "req-1", "Cluster", "Update",
         some (PyVal.dict [("Config", PyVal.dict [("version", PyVal.str "1.21")])]),
         some (PyVal.dict [("Config", PyVal.dict [("version", PyVal.str "1.20")])]),
         some "prod"⟩
        ⟨fun _ => Except.ok (), fun _ => Except.ok (), fun _ => Except.ok (),
         fun _ => Except.ok (PyVal.dict [("cluster", PyVal.dict
           [("name", PyVal.str "prod"), ("endpoint", PyVal.str "https://eks.example"),
            ("arn", PyVal.str "arn:cluster"),
            ("certificateAuthority", PyVal.dict [("data", PyVal.str "CA")]),
            ("version", PyVal.str "1.20")])]),
         fun _ _ => Except.ok (), fun _ => Except.ok ()⟩
        "log-stream-1"
      = [CEv.describe_cluster (PyVal.str "prod"),
         CEv.update_cluster_version (PyVal.str "prod") (PyVal.str "1.21"),
         CEv.wait_cluster_active (PyVal.str "prod") 30 26,
         CEv.describe_cluster (PyVal.str "prod"),
         CEv.send (cfn_send_cluster
           ⟨"stack-1", "req-1", "Cluster", "Update",
            some (PyVal.dict [("Config", PyVal.dict [("version", PyVal.str "1.21")])]),
            some (PyVal.dict [("Config", PyVal.dict [("version", PyVal.str "1.20")])]),
            some "prod"⟩
           "log-stream-1" CFN_SUCCESS
           [("Name", PyVal.str "prod"), ("Endpoint", PyVal.str "https://eks.example"),
            ("Arn", PyVal.str "arn:cluster"),
            ("CertificateAuthorityData", PyVal.str "CA")] (PyVal.str "prod")
           Option.none)] :=
  (C7_version_update_amended.1 _ _ "log-stream-1" "prod" "1.20" "1.21" "1.20"
    (PyVal.str "prod") (PyVal.str "https://eks.example") (PyVal.str "arn:cluster")
    (PyVal.str "CA") rfl rfl rfl rfl (by decide) (by decide) rfl rfl rfl).1

/-! ## C2: replacement mints a fresh name -/

/-- C2 counterexample: an Update changing the immutable `roleArn` while
`PhysicalResourceId = "prod"` does replace the cluster and report Success
with the new physical id — but the minted name is `cluster-{request_id}`
(here `"cluster-r1"`), **not** the old name with a uniqueness token appended:
`"prod-"` is not a prefix of the new name. -/
theorem C2_replacement_name_counterexample :
    clusterHandler
        ⟨"stack-1", "r1", "Cluster", "Update",
         some (PyVal.dict [("Config", PyVal.dict [("roleArn", PyVal.str "arn:new")])]),
         some (PyVal.dict [("Config", PyVal.dict [("roleArn", PyVal.str "arn:old")])]),
         some "prod"⟩
        ⟨fun _ => Except.ok (), fun _ => Except.ok (), fun _ => Except.ok (),
         fun n => match n with
           | PyVal.str s =>
               if s = "prod" then
                 Except.ok (PyVal.dict [("cluster", PyVal.dict
                   [("version", PyVal.str "1.20")])])
               else
                 Except.ok (PyVal.dict [("cluster", PyVal.dict
                   [("name", PyVal.str "cluster-r1"),
                    ("endpoint", PyVal.str "https://eks2.example"),
                    ("arn", PyVal.str "arn:cluster2"),
                    ("certificateAuthority", PyVal.dict [("data", PyVal.str "CA2")])])])
           | _ => Except.error "InvalidParameterException",
         fun _ _ => Except.ok (), fun _ => Except.ok ()⟩
        "log-stream-1"
      = [CEv.describe_cluster (PyVal.str "prod"),
         CEv.create_cluster [("roleArn", PyVal.str "arn:new"),
                             ("name", PyVal.str "cluster-r1")],
         CEv.wait_cluster_active (PyVal.str "cluster-r1") 30 26,
         CEv.describe_cluster (PyVal.str "cluster-r1"),
         CEv.send
           { Status := CFN_SUCCESS
             Reason := "See the details in CloudWatch Log Stream: log-stream-1"
             PhysicalResourceId := PyVal.str "cluster-r1"
             StackId := "stack-1"
             RequestId := "r1"
             LogicalResourceId := "Cluster"
             NoEcho := false
             Data := [("Name", PyVal.str "cluster-r1"),
                      ("Endpoint", PyVal.str "https://eks2.example"),
                      ("Arn", PyVal.str "arn:cluster2"),
                      ("CertificateAuthorityData", PyVal.str "CA2")] }]
    ∧ List.isPrefixOf "prod-".toList "cluster-r1".toList = false := by
  exact ⟨rfl, rfl⟩

/-- C2 amended: for an Update changing the immutable `roleArn` while the
resolved name equals the current physical id, the executor mints the fresh
name `cluster-{request_id}` (NOT the old name with a token appended), issues
a create with that new identity, and reports Success carrying the new
`PhysicalResourceId`; the old resource is not deleted by this invocation
(the trace holds no delete operation). -/
theorem C2_replacement_mints_new_name (ev : ClusterEvent) (eks : EksOracle)
    (logStream p rid oldRole newRole : String) (cst nmv epv arnv cadv : PyVal)
    (hrt : ev.RequestType = "Update")
    (hrid : ev.RequestId = rid)
    (hprops : ev.ResourceProperties
      = some (PyVal.dict [("Config", PyVal.dict [("roleArn", PyVal.str newRole)])]))
    (hold : ev.OldResourceProperties
      = some (PyVal.dict [("Config", PyVal.dict [("roleArn", PyVal.str oldRole)])]))
    (hpid : ev.PhysicalResourceId = some p) (hp : p ≠ "")
    (hrole : oldRole ≠ newRole)
    (hdesc1 : eks.describe_cluster (PyVal.str p)
      = Except.ok (PyVal.dict [("cluster", cst)]))
    (hcreate : eks.create_cluster
        [("roleArn", PyVal.str newRole), ("name", PyVal.str (new_cluster_name rid))]
      = Except.ok ())
    (hwait : eks.wait_cluster_active (PyVal.str (new_cluster_name rid)) = Except.ok ())
    (hdesc2 : eks.describe_cluster (PyVal.str (new_cluster_name rid))
      = Except.ok (PyVal.dict [("cluster", PyVal.dict
          [("name", nmv), ("endpoint", epv), ("arn", arnv),
           ("certificateAuthority", PyVal.dict [("data", cadv)])])])) :
    clusterHandler ev eks logStream
      = [CEv.describe_cluster (PyVal.str p),
         CEv.create_cluster [("roleArn", PyVal.str newRole),
                             ("name", PyVal.str (new_cluster_name rid))],
         CEv.wait_cluster_active (PyVal.str (new_cluster_name rid)) 30 26,
         CEv.describe_cluster (PyVal.str (new_cluster_name rid)),
         CEv.send (cfn_send_cluster ev logStream CFN_SUCCESS
           [("Name", nmv), ("Endpoint", epv), ("Arn", arnv),
            ("CertificateAuthorityData", cadv)]
           (PyVal.str (new_cluster_name rid)) Option.none)]
    ∧ (cfn_send_cluster ev logStream CFN_SUCCESS
         [("Name", nmv), ("Endpoint", epv), ("Arn", arnv),
          ("CertificateAuthorityData", cadv)]
         (PyVal.str (new_cluster_name rid)) Option.none).PhysicalResourceId
      = PyVal.str (new_cluster_name rid)
    ∧ (cfn_send_cluster ev logStream CFN_SUCCESS
         [("Name", nmv), ("Endpoint", epv), ("Arn", arnv),
          ("CertificateAuthorityData", cadv)]
         (PyVal.str (new_cluster_name rid)) Option.none).Status = CFN_SUCCESS
    ∧ new_cluster_name rid = "cluster-" ++ rid := by
  refine ⟨?_, ?_, rfl, rfl⟩
  · unfold clusterHandler clusterTry clusterConvergeReport
    simp [hprops, hold, hpid, hrt, hrid, hdesc1, hcreate, hwait, hdesc2, keyOf,
      pyIndex_dict, pyLookup, pyGetAttrD_dict, asDict, resolveClusterName, pyGet,
      pySet, isNone, optStrTruthy, hp, pyOfOptStr, should_replace_cluster,
      pyEq_str_iff, beq_eq_false_iff_ne, hrole]
  · have hne : "cluster-" ++ rid ≠ "" := string_append_ne_empty "cluster-" rid (by decide)
    simp [cfn_send_cluster, pyTruthy, new_cluster_name, hne]

/-- Witness for C2 (amended) at the concrete scenario-B inputs. -/
theorem C2_replacement_mints_new_name_witness :
    clusterHandler
        ⟨"stack-1", "r1", "Cluster", "Update",
         some (PyVal.dict [("Config", PyVal.dict [("roleArn", PyVal.str "arn:new")])]),
         some (PyVal.dict [("Config", PyVal.dict [("roleArn", PyVal.str "arn:old")])]),
         some "prod"⟩
        ⟨fun _ => Except.ok (), fun _ => Except.ok (), fun _ => Except.ok (),
         fun n => match n with
           | PyVal.str s =>
               if s = "prod" then
                 Except.ok (PyVal.dict [("cluster", PyVal.dict
                   [("version", PyVal.str "1.20")])])
               else
                 Except.ok (PyVal.dict [("cluster", PyVal.dict
                   [("name", PyVal.str "new"), ("endpoint", PyVal.str "https://e"),
                    ("arn", PyVal.str "arn:c2"),
                    ("certificateAuthority", PyVal.dict [("data", PyVal.str "CA2")])])])
           | _ => Except.error "InvalidParameterException",
         fun _ _ => Except.ok (), fun _ => Except.ok ()⟩
        "ls-1"
      = [CEv.describe_cluster (PyVal.str "prod"),
         CEv.create_cluster [("roleArn", PyVal.str "arn:new"),
                             ("name", PyVal.str (new_cluster_name "r1"))],
         CEv.wait_cluster_active (PyVal.str (new_cluster_name "r1")) 30 26,
         CEv.describe_cluster (PyVal.str (new_cluster_name "r1")),
         CEv.send (cfn_send_cluster
           ⟨"stack-1", "r1", "Cluster", "Update",
            some (PyVal.dict [("Config", PyVal.dict [("roleArn", PyVal.str "arn:new")])]),
            some (PyVal.dict [("Config", PyVal.dict [("roleArn", PyVal.str "arn:old")])]),
            some "prod"⟩
           "ls-1" CFN_SUCCESS
           [("Name", PyVal.str "new"), ("Endpoint", PyVal.str "https://e"),
            ("Arn", PyVal.str "arn:c2"), ("CertificateAuthorityData", PyVal.str "CA2")]
           (PyVal.str (new_cluster_name "r1")) Option.none)] :=
  (C2_replacement_mints_new_name _ _ "ls-1" "prod" "r1" "arn:old" "arn:new"
    (PyVal.dict [("version", PyVal.str "1.20")]) (PyVal.str "new")
    (PyVal.str "https://e") (PyVal.str "arn:c2") (PyVal.str "CA2")
    rfl rfl rfl rfl rfl (by decide) (by decide) rfl rfl rfl rfl).1

/-! ## Helm-chart delete behaviour (shared helper) -/

/-- For a Delete with a truthy physical id, the helm-chart handler reports
Success with that physical id whatever the uninstall command does: the
handler's local `try/except` around `helm('uninstall', ...)` only logs a
failure. No hypothesis constrains `o.check_output`. -/
theorem helm_delete_swallows (ev : HelmEvent) (cn : String) (o : HelmOracle)
    (logStream rel cht p : String)
    (hrt : ev.RequestType = "Delete")
    (hprops : ev.ResourceProperties
      = some (PyVal.dict [("Release", PyVal.str rel), ("Chart", PyVal.str cht)]))
    (hpid : ev.PhysicalResourceId = some p) (hp : p ≠ "")
    (hkube : o.update_kubeconfig cn = Except.ok ()) :
    helmHandler ev (some cn) o logStream
      = [HEv.update_kubeconfig cn,
         HEv.run_helm [PyVal.str "helm", PyVal.str "uninstall", PyVal.str rel,
                       PyVal.str "--kubeconfig", PyVal.str kubeconfigPath],
         HEv.send (cfn_send_helm ev logStream CFN_SUCCESS [] (PyVal.str p)
           Option.none)] := by
  unfold helmHandler helmTry helmReportPhysicalId
  rcases hco : o.check_output [PyVal.str "helm", PyVal.str "uninstall", PyVal.str rel,
      PyVal.str "--kubeconfig", PyVal.str kubeconfigPath] with m | a <;>
    simp [hrt, hprops, hpid, hp, hkube, hco, keyOf, pyIndex_dict, pyLookup,
      pyGetAttrD_dict, isNone, optStrTruthy, pyOfOptStr, helm_cmnd]

/-! ## C3: idempotent delete -/

/-- C3 counterexample: a Delete whose target cluster is already absent — the
resource manager raises `ResourceNotFoundException` from `delete_cluster` —
is reported FAILED by the cluster-resource handler, not Success: the
exception propagates to the catch-all boundary. -/
theorem C3_idempotent_delete_counterexample :
    clusterHandler
        ⟨"stack-1", "req-1", "Cluster", "Delete",
         some (PyVal.dict [("Config", PyVal.dict [])]),
         Option.none, some "prod"⟩
        ⟨fun _ => Except.error ("An error occurred (ResourceNotFoundException) when "
            ++ "calling the DeleteCluster operation: No cluster found for name: prod."),
         fun _ => Except.ok (), fun _ => Except.ok (),
         fun _ => Except.ok (PyVal.dict []), fun _ _ => Except.ok (),
         fun _ => Except.ok ()⟩
        "log-stream-1"
      = [CEv.delete_cluster (PyVal.str "prod"),
         CEv.send
           { Status := CFN_FAILED
             Reason := "An error occurred (ResourceNotFoundException) when calling "
               ++ "the DeleteCluster operation: No cluster found for name: prod."
             PhysicalResourceId := PyVal.str "prod"
             StackId := "stack-1"
             RequestId := "req-1"
             LogicalResourceId := "Cluster"
             NoEcho := false
             Data := [] }] := by
  rfl

/-- C3 amended: delete idempotency holds only in the legacy helm-chart
handler — a Delete whose uninstall command fails (e.g. the deployment tool
reports "not found") still reports Success with the given physical id.  In
the cluster-resource handler a failing `delete_cluster` (e.g. "not found")
propagates to the catch-all and the handler reports FAILED with the error's
message, the physical id falling back to the request's. -/
theorem C3_idempotent_delete_split :
    (∀ (ev : HelmEvent) (cn : String) (o : HelmOracle) (logStream rel cht p msg : String),
        ev.RequestType = "Delete" →
        ev.ResourceProperties
          = some (PyVal.dict [("Release", PyVal.str rel), ("Chart", PyVal.str cht)]) →
        ev.PhysicalResourceId = some p → p ≠ "" →
        o.update_kubeconfig cn = Except.ok () →
        o.check_output [PyVal.str "helm", PyVal.str "uninstall", PyVal.str rel,
          PyVal.str "--kubeconfig", PyVal.str kubeconfigPath] = Except.error msg →
        helmHandler ev (some cn) o logStream
          = [HEv.update_kubeconfig cn,
             HEv.run_helm [PyVal.str "helm", PyVal.str "uninstall", PyVal.str rel,
                           PyVal.str "--kubeconfig", PyVal.str kubeconfigPath],
             HEv.send (cfn_send_helm ev logStream CFN_SUCCESS [] (PyVal.str p)
               Option.none)]
          ∧ (cfn_send_helm ev logStream CFN_SUCCESS [] (PyVal.str p)
              Option.none).Status = CFN_SUCCESS
          ∧ (cfn_send_helm ev logStream CFN_SUCCESS [] (PyVal.str p)
              Option.none).PhysicalResourceId = PyVal.str p)
  ∧ (∀ (ev : ClusterEvent) (eks : EksOracle) (logStream p msg : String),
        ev.RequestType = "Delete" →
        ev.ResourceProperties = some (PyVal.dict [("Config", PyVal.dict [])]) →
        ev.OldResourceProperties = Option.none →
        ev.PhysicalResourceId = some p → p ≠ "" → msg ≠ "" →
        eks.delete_cluster (PyVal.str p) = Except.error msg →
        clusterHandler ev eks logStream
          = [CEv.delete_cluster (PyVal.str p),
             CEv.send (cfn_send_cluster ev logStream CFN_FAILED [] PyVal.none
               (some msg))]
          ∧ (cfn_send_cluster ev logStream CFN_FAILED [] PyVal.none
              (some msg)).Status = CFN_FAILED
          ∧ (cfn_send_cluster ev logStream CFN_FAILED [] PyVal.none
              (some msg)).Reason = msg
          ∧ (cfn_send_cluster ev logStream CFN_FAILED [] PyVal.none
              (some msg)).PhysicalResourceId = PyVal.str p) := by
  constructor
  · intro ev cn o logStream rel cht p msg hrt hprops hpid hp hkube huninstall
    refine ⟨helm_delete_swallows ev cn o logStream rel cht p hrt hprops hpid hp hkube,
      rfl, ?_⟩
    simp [cfn_send_helm, pyTruthy, hp]
  · intro ev eks logStream p msg hrt hprops hold hpid hp hmsg hdel
    refine ⟨?_, rfl, ?_, ?_⟩
    · unfold clusterHandler clusterTry clusterConvergeReport
      simp [hrt, hprops, hold, hpid, hp, hdel, keyOf, pyIndex_dict, pyLookup,
        pyGetAttrD_dict, asDict, resolveClusterName, pyGet, pySet, isNone,
        optStrTruthy, pyOfOptStr, PyErr.str]
    · simp [cfn_send_cluster, reasonOrDefault, hmsg]
    · simp [cfn_send_cluster, pyTruthy, hpid]

/-- Witness for C3 (amended) at concrete inputs: the helm handler succeeds on
a failing uninstall; the cluster handler fails on a failing delete. -/
theorem C3_idempotent_delete_split_witness :
    helmHandler
        ⟨"stack-1", "req-1", "Chart", "Delete",
         some (PyVal.dict [("Release", PyVal.str "web"), ("Chart", PyVal.str "nginx")]),
         some "cl/1111"⟩
        (some "cl")
        ⟨fun _ => Except.ok (), fun v => Except.ok v,
         fun _ => Except.error "Error: uninstall: Release not loaded: web: release: not found",
         "2222"⟩
        "ls-1"
      = [HEv.update_kubeconfig "cl",
         HEv.run_helm [PyVal.str "helm", PyVal.str "uninstall", PyVal.str "web",
                       PyVal.str "--kubeconfig", PyVal.str kubeconfigPath],
         HEv.send (cfn_send_helm
           ⟨"stack-1", "req-1", "Chart", "Delete",
            some (PyVal.dict [("Release", PyVal.str "web"),
              ("Chart", PyVal.str "nginx")]),
            some "cl/1111"⟩
           "ls-1" CFN_SUCCESS [] (PyVal.str "cl/1111") Option.none)] :=
  ((C3_idempotent_delete_split.1 _ "cl" _ "ls-1" "web" "nginx" "cl/1111"
      "Error: uninstall: Release not loaded: web: release: not found"
      rfl rfl rfl (by decide) rfl rfl).1)

/-! ## C10: helm-chart delete swallow and invalid-request failure -/

/-- C10: in the legacy helm-chart handler, a Delete with a defined physical
id reports Success with that prior physical id for **every** outcome of the
uninstall command (no hypothesis constrains it — any exception is swallowed);
a Delete with no physical id, and likewise an Update whose upgrade succeeded
but which carries no physical id, instead report FAILED with the
"invalid request" reason naming the request type. -/
theorem C10_helm_delete_swallow_invalid_request :
    (∀ (ev : HelmEvent) (cn : String) (o : HelmOracle) (logStream rel cht p : String),
        ev.RequestType = "Delete" →
        ev.ResourceProperties
          = some (PyVal.dict [("Release", PyVal.str rel), ("Chart", PyVal.str cht)]) →
        ev.PhysicalResourceId = some p → p ≠ "" →
        o.update_kubeconfig cn = Except.ok () →
        helmHandler ev (some cn) o logStream
          = [HEv.update_kubeconfig cn,
             HEv.run_helm [PyVal.str "helm", PyVal.str "uninstall", PyVal.str rel,
                           PyVal.str "--kubeconfig", PyVal.str kubeconfigPath],
             HEv.send (cfn_send_helm ev logStream CFN_SUCCESS [] (PyVal.str p)
               Option.none)]
          ∧ (cfn_send_helm ev logStream CFN_SUCCESS [] (PyVal.str p)
              Option.none).Status = CFN_SUCCESS
          ∧ (cfn_send_helm ev logStream CFN_SUCCESS [] (PyVal.str p)
              Option.none).PhysicalResourceId = PyVal.str p)
  ∧ (∀ (ev : HelmEvent) (cn : String) (o : HelmOracle) (logStream rel cht : String),
        ev.RequestType = "Delete" →
        ev.ResourceProperties
          = some (PyVal.dict [("Release", PyVal.str rel), ("Chart", PyVal.str cht)]) →
        ev.PhysicalResourceId = Option.none →
        o.update_kubeconfig cn = Except.ok () →
        helmHandler ev (some cn) o logStream
          = [HEv.update_kubeconfig cn,
             HEv.run_helm [PyVal.str "helm", PyVal.str "uninstall", PyVal.str rel,
                           PyVal.str "--kubeconfig", PyVal.str kubeconfigPath],
             HEv.send (cfn_send_helm ev logStream CFN_FAILED [] PyVal.none
               (some ("invalid request: request type is '" ++ ev.RequestType
                 ++ "' but 'PhysicalResourceId' is not defined")))]
          ∧ (cfn_send_helm ev logStream CFN_FAILED [] PyVal.none
              (some ("invalid request: request type is 'Delete' but "
                ++ "'PhysicalResourceId' is not defined"))).Status = CFN_FAILED)
  ∧ (∀ (ev : HelmEvent) (cn : String) (o : HelmOracle) (logStream rel cht out : String),
        ev.RequestType = "Update" →
        ev.ResourceProperties
          = some (PyVal.dict [("Release", PyVal.str rel), ("Chart", PyVal.str cht)]) →
        ev.PhysicalResourceId = Option.none →
        o.update_kubeconfig cn = Except.ok () →
        o.check_output [PyVal.str "helm", PyVal.str "upgrade", PyVal.str rel,
          PyVal.str cht, PyVal.str "--install", PyVal.str "--kubeconfig",
          PyVal.str kubeconfigPath] = Except.ok out →
        helmHandler ev (some cn) o logStream
          = [HEv.update_kubeconfig cn,
             HEv.run_helm [PyVal.str "helm", PyVal.str "upgrade", PyVal.str rel,
                           PyVal.str cht, PyVal.str "--install",
                           PyVal.str "--kubeconfig", PyVal.str kubeconfigPath],
             HEv.send (cfn_send_helm ev logStream CFN_FAILED [] PyVal.none
               (some ("invalid request: request type is '" ++ ev.RequestType
                 ++ "' but 'PhysicalResourceId' is not defined")))]) := by
  refine ⟨?_, ?_, ?_⟩
  · intro ev cn o logStream rel cht p hrt hprops hpid hp hkube
    refine ⟨helm_delete_swallows ev cn o logStream rel cht p hrt hprops hpid hp hkube,
      rfl, ?_⟩
    simp [cfn_send_helm, pyTruthy, hp]
  · intro ev cn o logStream rel cht hrt hprops hpid hkube
    constructor
    · unfold helmHandler helmTry helmReportPhysicalId
      rcases hco : o.check_output [PyVal.str "helm", PyVal.str "uninstall",
          PyVal.str rel, PyVal.str "--kubeconfig", PyVal.str kubeconfigPath]
        with m | a <;>
        simp [hrt, hprops, hpid, hkube, hco, keyOf, pyIndex_dict, pyLookup,
          pyGetAttrD_dict, isNone, optStrTruthy, pyOfOptStr, helm_cmnd]
    · rfl
  · intro ev cn o logStream rel cht out hrt hprops hpid hkube hupg
    unfold helmHandler helmTry helmReportPhysicalId
    simp [hrt, hprops, hpid, hkube, hupg, keyOf, pyIndex_dict, pyLookup,
      pyGetAttrD_dict, isNone, optStrTruthy, pyOfOptStr, helm_cmnd]

/-- Witness for C10 at concrete inputs (uninstall failing, Delete and Update
without a physical id). -/
theorem C10_helm_delete_swallow_invalid_request_witness :
    helmHandler
        ⟨"stack-1", "req-1", "Chart", "Delete",
         some (PyVal.dict [("Release", PyVal.str "web"), ("Chart", PyVal.str "nginx")]),
         some "cl/1111"⟩
        (some "cl")
        ⟨fun _ => Except.ok (), fun v => Except.ok v,
         fun _ => Except.error "some uninstall failure", "2222"⟩
        "ls-1"
      = [HEv.update_kubeconfig "cl",
         HEv.run_helm [PyVal.str "helm", PyVal.str "uninstall", PyVal.str "web",
                       PyVal.str "--kubeconfig", PyVal.str kubeconfigPath],
         HEv.send (cfn_send_helm
           ⟨"stack-1", "req-1", "Chart", "Delete",
            some (PyVal.dict [("Release", PyVal.str "web"),
              ("Chart", PyVal.str "nginx")]),
            some "cl/1111"⟩
           "ls-1" CFN_SUCCESS [] (PyVal.str "cl/1111") Option.none)]
    ∧ helmHandler
        ⟨"stack-1", "req-1", "Chart", "Delete",
         some (PyVal.dict [("Release", PyVal.str "web"), ("Chart", PyVal.str "nginx")]),
         Option.none⟩
        (some "cl")
        ⟨fun _ => Except.ok (), fun v => Except.ok v,
         fun _ => Except.ok "uninstalled", "2222"⟩
        "ls-1"
      = [HEv.update_kubeconfig "cl",
         HEv.run_helm [PyVal.str "helm", PyVal.str "uninstall", PyVal.str "web",
                       PyVal.str "--kubeconfig", PyVal.str kubeconfigPath],
         HEv.send (cfn_send_helm
           ⟨"stack-1", "req-1", "Chart", "Delete",
            some (PyVal.dict [("Release", PyVal.str "web"),
              ("Chart", PyVal.str "nginx")]),
            Option.none⟩
           "ls-1" CFN_FAILED [] PyVal.none
           (some ("invalid request: request type is '" ++ "Delete"
             ++ "' but 'PhysicalResourceId' is not defined")))] :=
  ⟨(C10_helm_delete_swallow_invalid_request.1 _ "cl" _ "ls-1" "web" "nginx" "cl/1111"
      rfl rfl rfl (by decide) rfl).1,
   (C10_helm_delete_swallow_invalid_request.2.1 _ "cl" _ "ls-1" "web" "nginx"
      rfl rfl rfl rfl).1⟩

/-! ## C4: the single response boundary -/

theorem Rec.trace_bind (m : Rec e α) (f : α → Rec e β) :
    (m >>= f).trace
      = m.trace ++ (match m.res with
          | Except.ok a => (f a).trace
          | Except.error _ => []) := by
  rcases m with ⟨tr, r⟩
  cases r <;> simp

theorem Rec.res_bind (m : Rec e α) (f : α → Rec e β) :
    (m >>= f).res
      = (match m.res with
         | Except.ok a => (f a).res
         | Except.error err => Except.error err) := by
  rcases m with ⟨tr, r⟩
  cases r <;> simp

@[simp] theorem rlift_trace (r : Except PyErr α) : (rlift r : Rec e α).trace = [] := rfl

@[simp] theorem rlift_res (r : Except PyErr α) : (rlift r : Rec e α).res = r := rfl

@[simp] theorem callOp_trace (op : e) (r : Except String α) :
    (callOp op r).trace = [op] := rfl

@[simp] theorem callOp_res (op : e) (r : Except String α) :
    (callOp op r).res = r.mapError PyErr.exc := rfl

@[simp] theorem emit_trace (op : e) : (emit op).trace = [op] := rfl

@[simp] theorem emit_res (op : e) : (emit op).res = Except.ok () := rfl

@[simp] theorem pyRaise_trace (err : PyErr) : (pyRaise err : Rec e α).trace = [] := rfl

@[simp] theorem pyRaise_res (err : PyErr) :
    (pyRaise err : Rec e α).res = Except.error err := rfl

/-- "The computation has sent exactly one response when it completes, none
when it raises", for a trace-projection `S` picking the sent responses. -/
def RGood (S : List e → List CfnResponse) (m : Rec e α) : Prop :=
  (S m.trace).length
    = (match m.res with
       | Except.ok _ => 1
       | Except.error _ => 0)

theorem RGood_bind {S : List e → List CfnResponse}
    (hS : ∀ a b : List e, S (a ++ b) = S a ++ S b)
    {m : Rec e α} {f : α → Rec e β}
    (h1 : S m.trace = []) (h2 : ∀ a, RGood S (f a)) : RGood S (m >>= f) := by
  unfold RGood at h2 ⊢
  rw [Rec.trace_bind, Rec.res_bind]
  rcases hr : m.res with err | a
  · simp [hS, h1]
  · simp [hS, h1, h2 a]

theorem RFree_bind {S : List e → List CfnResponse}
    (hS : ∀ a b : List e, S (a ++ b) = S a ++ S b)
    {m : Rec e α} {f : α → Rec e β}
    (h1 : S m.trace = []) (h2 : ∀ a, S (f a).trace = []) :
    S (m >>= f).trace = [] := by
  rw [Rec.trace_bind]
  rcases hr : m.res with err | a
  · simp [hS, h1]
  · simp [hS, h1, h2 a]

theorem csends_append' (a b : List CEv) : csends (a ++ b) = csends a ++ csends b :=
  csends_append a b

theorem hsends_append' (a b : List HEv) : hsends (a ++ b) = hsends a ++ hsends b :=
  hsends_append a b

/-- The converge-and-report tail of the cluster handler sends exactly one
response when it completes and none when it raises. -/
theorem clusterConvergeReport_good (ev : ClusterEvent) (eks : EksOracle)
    (logStream : String) (cluster_name2 : PyVal) :
    RGood csends (clusterConvergeReport ev eks logStream cluster_name2) := by
  unfold clusterConvergeReport
  refine RGood_bind csends_append' (by simp) fun _ => ?_
  refine RGood_bind csends_append' (by simp) fun descResp => ?_
  refine RGood_bind csends_append' (by simp) fun cl => ?_
  refine RGood_bind csends_append' (by simp) fun nm => ?_
  refine RGood_bind csends_append' (by simp) fun ep => ?_
  refine RGood_bind csends_append' (by simp) fun arn => ?_
  refine RGood_bind csends_append' (by simp) fun ca => ?_
  refine RGood_bind csends_append' (by simp) fun cad => ?_
  simp [RGood]

/-- The physical-id reporting block of the helm-chart handler sends exactly
one response on every path. -/
theorem helmReportPhysicalId_good (ev : HelmEvent) (o : HelmOracle)
    (logStream cluster_name : String) :
    RGood hsends (helmReportPhysicalId ev o logStream cluster_name) := by
  unfold helmReportPhysicalId
  split
  · simp [RGood]
  · split <;> simp [RGood]

set_option maxHeartbeats 1000000 in
/-- Send-count invariant of the cluster-resource `try:` body, over every
event, every EKS behaviour and every log stream: a body that runs to
completion has sent exactly one response; a body that raises has sent none
(the boundary then sends the single FAILED response). -/
theorem clusterTry_send_count (ev : ClusterEvent) (eks : EksOracle) (logStream : String) :
    RGood csends (clusterTry ev eks logStream) := by
  unfold clusterTry
  refine RGood_bind csends_append' (by simp) fun props => ?_
  refine RGood_bind csends_append' (by simp) fun configV => ?_
  refine RGood_bind csends_append' (by simp) fun config => ?_
  refine RGood_bind csends_append' (by simp) fun old_config => ?_
  refine RGood_bind csends_append' (by simp) fun cluster_nameV => ?_
  split
  · -- Delete branch: two EKS calls then the single send
    refine RGood_bind csends_append' (by simp) fun _ => ?_
    refine RGood_bind csends_append' (by simp) fun _ => ?_
    simp [RGood]
  · -- Create/Update/invalid branch, each leaf continuing into the tail
    dsimp only
    split
    · -- Create
      refine RGood_bind csends_append' (by simp) fun _ => ?_
      exact RGood_bind csends_append' (by simp) fun y =>
        clusterConvergeReport_good ev eks logStream y
    · split
      · -- Update
        refine RGood_bind csends_append' (by simp) fun stateResp => ?_
        refine RGood_bind csends_append' (by simp) fun current_state => ?_
        refine RGood_bind csends_append' (by simp) fun repl => ?_
        split
        · -- replacement: create then tail
          refine RGood_bind csends_append' (by simp) fun _ => ?_
          exact RGood_bind csends_append' (by simp) fun y =>
            clusterConvergeReport_good ev eks logStream y
        · -- in-place version handling
          refine RGood_bind csends_append' (by simp) fun old_version => ?_
          split
          · exact RGood_bind csends_append' (by simp) fun y =>
              clusterConvergeReport_good ev eks logStream y
          · refine RGood_bind csends_append' (by simp) fun old_version_actual => ?_
            split
            · split
              · exact RGood_bind csends_append' (by simp) fun y =>
                  clusterConvergeReport_good ev eks logStream y
              · refine RGood_bind csends_append' (by simp) fun _ => ?_
                exact RGood_bind csends_append' (by simp) fun y =>
                  clusterConvergeReport_good ev eks logStream y
            · exact RGood_bind csends_append' (by simp) fun y =>
                clusterConvergeReport_good ev eks logStream y
      · -- invalid request type: raise, continuing (vacuously) into the tail
        exact RGood_bind csends_append' (by simp) fun y =>
          clusterConvergeReport_good ev eks logStream y

set_option maxHeartbeats 1000000 in
/-- Send-count invariant of the helm-chart `try:` body. -/
theorem helmTry_send_count (ev : HelmEvent) (cluster_name_env : Option String)
    (o : HelmOracle) (logStream : String) :
    RGood hsends (helmTry ev cluster_name_env o logStream) := by
  unfold helmTry
  refine RGood_bind hsends_append' (by simp) fun props => ?_
  refine RGood_bind hsends_append' (by simp) fun release => ?_
  refine RGood_bind hsends_append' (by simp) fun chart => ?_
  refine RGood_bind hsends_append' (by simp) fun version => ?_
  refine RGood_bind hsends_append' (by simp) fun ns => ?_
  refine RGood_bind hsends_append' (by simp) fun repository => ?_
  refine RGood_bind hsends_append' (by simp) fun values_text => ?_
  split
  · -- CLUSTER_NAME missing: the single failure send
    simp [RGood]
  · -- CLUSTER_NAME present
    refine RGood_bind hsends_append' (by simp) fun _ => ?_
    dsimp only
    split
    · -- values file written
      refine RGood_bind hsends_append' (by simp) fun values => ?_
      refine RGood_bind hsends_append' (by simp) fun _ => ?_
      refine RGood_bind hsends_append' (by simp) fun values_file => ?_
      split
      · -- Create/Update: helm upgrade then the report block
        refine RGood_bind hsends_append' (by simp) fun _ => ?_
        exact RGood_bind hsends_append' (by simp) fun _ =>
          helmReportPhysicalId_good ev o logStream _
      · split
        · -- Delete: recorded helm uninstall, swallowed outcome, report block
          refine RGood_bind hsends_append' (by simp) fun _ => ?_
          split <;>
            exact RGood_bind hsends_append' (by simp) fun _ =>
              helmReportPhysicalId_good ev o logStream _
        · exact RGood_bind hsends_append' (by simp) fun _ =>
            helmReportPhysicalId_good ev o logStream _
    · -- no values file
      refine RGood_bind hsends_append' (by simp) fun values_file => ?_
      split
      · refine RGood_bind hsends_append' (by simp) fun _ => ?_
        exact RGood_bind hsends_append' (by simp) fun _ =>
          helmReportPhysicalId_good ev o logStream _
      · split
        · refine RGood_bind hsends_append' (by simp) fun _ => ?_
          split <;>
            exact RGood_bind hsends_append' (by simp) fun _ =>
              helmReportPhysicalId_good ev o logStream _
        · exact RGood_bind hsends_append' (by simp) fun _ =>
            helmReportPhysicalId_good ev o logStream _

/-- C4: for every inbound request — over all events, all external-system
behaviours and both legacy handlers — exactly one response is sent: a
completed body has sent exactly one response and the catch-all boundary adds
none; a body that raises anywhere has sent none, and the boundary converts
the raised exception into the single FAILED response whose reason carries the
exception's message (`str(e)` for the cluster handler and for generic
exceptions in the helm handler; the helm handler wraps a `KeyError` into its
"invalid request. Missing ..." reason).  Only the response transport itself
(not modelled, merely logged on failure) is outside this guarantee. -/
theorem C4_single_response_boundary :
    (∀ (ev : ClusterEvent) (eks : EksOracle) (logStream : String),
        (csends (clusterHandler ev eks logStream)).length = 1)
  ∧ (∀ (ev : ClusterEvent) (eks : EksOracle) (logStream : String) (e : PyErr)
        (tr : List CEv),
        clusterTry ev eks logStream = ⟨tr, Except.error e⟩ → PyErr.str e ≠ "" →
        csends (clusterHandler ev eks logStream)
            = [cfn_send_cluster ev logStream CFN_FAILED [] PyVal.none
                (some (PyErr.str e))]
          ∧ (cfn_send_cluster ev logStream CFN_FAILED [] PyVal.none
              (some (PyErr.str e))).Status = CFN_FAILED
          ∧ (cfn_send_cluster ev logStream CFN_FAILED [] PyVal.none
              (some (PyErr.str e))).Reason = PyErr.str e)
  ∧ (∀ (ev : HelmEvent) (cluster_name_env : Option String) (o : HelmOracle)
        (logStream : String),
        (hsends (helmHandler ev cluster_name_env o logStream)).length = 1)
  ∧ (∀ (ev : HelmEvent) (cluster_name_env : Option String) (o : HelmOracle)
        (logStream m : String) (tr : List HEv),
        helmTry ev cluster_name_env o logStream = ⟨tr, Except.error (PyErr.exc m)⟩ →
        m ≠ "" →
        hsends (helmHandler ev cluster_name_env o logStream)
            = [cfn_send_helm ev logStream CFN_FAILED [] PyVal.none (some m)]
          ∧ (cfn_send_helm ev logStream CFN_FAILED [] PyVal.none
              (some m)).Status = CFN_FAILED
          ∧ (cfn_send_helm ev logStream CFN_FAILED [] PyVal.none
              (some m)).Reason = m)
  ∧ (∀ (ev : HelmEvent) (cluster_name_env : Option String) (o : HelmOracle)
        (logStream k : String) (tr : List HEv),
        helmTry ev cluster_name_env o logStream
          = ⟨tr, Except.error (PyErr.keyError k)⟩ →
        hsends (helmHandler ev cluster_name_env o logStream)
            = [cfn_send_helm ev logStream CFN_FAILED [] PyVal.none
                (some ("invalid request. Missing '"
                  ++ PyErr.str (PyErr.keyError k) ++ "'"))]
          ∧ (cfn_send_helm ev logStream CFN_FAILED [] PyVal.none
              (some ("invalid request. Missing '"
                ++ PyErr.str (PyErr.keyError k) ++ "'"))).Status = CFN_FAILED
          ∧ (cfn_send_helm ev logStream CFN_FAILED [] PyVal.none
              (some ("invalid request. Missing '"
                ++ PyErr.str (PyErr.keyError k) ++ "'"))).Reason
            = "invalid request. Missing '" ++ PyErr.str (PyErr.keyError k) ++ "'") := by
  refine ⟨?_, ?_, ?_, ?_, ?_⟩
  · intro ev eks logStream
    have hc := clusterTry_send_count ev eks logStream
    unfold RGood at hc
    unfold clusterHandler
    rcases h : clusterTry ev eks logStream with ⟨tr, r⟩
    rw [h] at hc
    cases r with
    | ok u => simpa using hc
    | error e =>
        simp only at hc
        have htr : csends tr = [] := List.length_eq_zero.mp (by simpa using hc)
        simp [htr]
  · intro ev eks logStream e tr h hmsg
    have hc := clusterTry_send_count ev eks logStream
    unfold RGood at hc
    rw [h] at hc
    have htr : csends tr = [] := List.length_eq_zero.mp (by simpa using hc)
    refine ⟨?_, rfl, ?_⟩
    · unfold clusterHandler
      rw [h]
      simp [htr]
    · simp [cfn_send_cluster, reasonOrDefault, hmsg]
  · intro ev cluster_name_env o logStream
    have hc := helmTry_send_count ev cluster_name_env o logStream
    unfold RGood at hc
    unfold helmHandler
    rcases h : helmTry ev cluster_name_env o logStream with ⟨tr, r⟩
    rw [h] at hc
    cases r with
    | ok u => simpa using hc
    | error e =>
        simp only at hc
        have htr : hsends tr = [] := List.length_eq_zero.mp (by simpa using hc)
        cases e <;> simp [htr]
  · intro ev cluster_name_env o logStream m tr h hmsg
    have hc := helmTry_send_count ev cluster_name_env o logStream
    unfold RGood at hc
    rw [h] at hc
    have htr : hsends tr = [] := List.length_eq_zero.mp (by simpa using hc)
    refine ⟨?_, rfl, ?_⟩
    · unfold helmHandler
      rw [h]
      simp [htr]
    · simp [cfn_send_helm, reasonOrDefault, hmsg]
  · intro ev cluster_name_env o logStream k tr h
    have hc := helmTry_send_count ev cluster_name_env o logStream
    unfold RGood at hc
    rw [h] at hc
    have htr : hsends tr = [] := List.length_eq_zero.mp (by simpa using hc)
    have hmsg : "invalid request. Missing '" ++ PyErr.str (PyErr.keyError k) ++ "'"
        ≠ "" := string_append_ne_empty "invalid request. Missing '"
          (PyErr.str (PyErr.keyError k) ++ "'") (by decide)
    refine ⟨?_, rfl, ?_⟩
    · unfold helmHandler
      rw [h]
      simp [htr]
    · simp [cfn_send_helm, reasonOrDefault, hmsg]

/-- Witness for C4's hypothesised parts at concrete inputs: a failing
cluster delete (generic exception), a failing helm upgrade (generic
exception), and a helm event missing the `Release` property (`KeyError`). -/
theorem C4_single_response_boundary_witness :
    csends (clusterHandler
        ⟨"stack-1", "req-1", "Cluster", "Delete",
         some (PyVal.dict [("Config", PyVal.dict [])]), Option.none, some "prod"⟩
        ⟨fun _ => Except.error "DeleteCluster failed", fun _ => Except.ok (),
         fun _ => Except.ok (), fun _ => Except.ok (PyVal.dict []),
         fun _ _ => Except.ok (), fun _ => Except.ok ()⟩ "ls-1")
      = [cfn_send_cluster
          ⟨"stack-1", "req-1", "Cluster", "Delete",
           some (PyVal.dict [("Config", PyVal.dict [])]), Option.none, some "prod"⟩
          "ls-1" CFN_FAILED [] PyVal.none
          (some (PyErr.str (PyErr.exc "DeleteCluster failed")))]
    ∧ hsends (helmHandler
        ⟨"stack-1", "req-1", "Chart", "Update",
         some (PyVal.dict [("Release", PyVal.str "web"), ("Chart", PyVal.str "nginx")]),
         some "cl/1111"⟩
        (some "cl")
        ⟨fun _ => Except.ok (), fun v => Except.ok v,
         fun _ => Except.error "Error: UPGRADE FAILED", "2222"⟩ "ls-1")
      = [cfn_send_helm
          ⟨"stack-1", "req-1", "Chart", "Update",
           some (PyVal.dict [("Release", PyVal.str "web"),
             ("Chart", PyVal.str "nginx")]),
           some "cl/1111"⟩
          "ls-1" CFN_FAILED [] PyVal.none (some "Error: UPGRADE FAILED")]
    ∧ hsends (helmHandler
        ⟨"stack-1", "req-1", "Chart", "Create",
         some (PyVal.dict [("Chart", PyVal.str "nginx")]), Option.none⟩
        (some "cl")
        ⟨fun _ => Except.ok (), fun v => Except.ok v,
         fun _ => Except.ok "ok", "2222"⟩ "ls-1")
      = [cfn_send_helm
          ⟨"stack-1", "req-1", "Chart", "Create",
           some (PyVal.dict [("Chart", PyVal.str "nginx")]), Option.none⟩
          "ls-1" CFN_FAILED [] PyVal.none
          (some ("invalid request. Missing '"
            ++ PyErr.str (PyErr.keyError "Release") ++ "'"))] :=
  ⟨(C4_single_response_boundary.2.1
      ⟨"stack-1", "req-1", "Cluster", "Delete",
       some (PyVal.dict [("Config", PyVal.dict [])]), Option.none, some "prod"⟩
      ⟨fun _ => Except.error "DeleteCluster failed", fun _ => Except.ok (),
       fun _ => Except.ok (), fun _ => Except.ok (PyVal.dict []),
       fun _ _ => Except.ok (), fun _ => Except.ok ()⟩
      "ls-1" (PyErr.exc "DeleteCluster failed")
      [CEv.delete_cluster (PyVal.str "prod")] rfl (by decide)).1,
   (C4_single_response_boundary.2.2.2.1
      ⟨"stack-1", "req-1", "Chart", "Update",
       some (PyVal.dict [("Release", PyVal.str "web"), ("Chart", PyVal.str "nginx")]),
       some "cl/1111"⟩
      (some "cl")
      ⟨fun _ => Except.ok (), fun v => Except.ok v,
       fun _ => Except.error "Error: UPGRADE FAILED", "2222"⟩
      "ls-1" "Error: UPGRADE FAILED"
      [HEv.update_kubeconfig "cl",
       HEv.run_helm [PyVal.str "helm", PyVal.str "upgrade", PyVal.str "web",
         PyVal.str "nginx", PyVal.str "--install", PyVal.str "--kubeconfig",
         PyVal.str kubeconfigPath]] rfl (by decide)).1,
   (C4_single_response_boundary.2.2.2.2
      ⟨"stack-1", "req-1", "Chart", "Create",
       some (PyVal.dict [("Chart", PyVal.str "nginx")]), Option.none⟩
      (some "cl")
      ⟨fun _ => Except.ok (), fun v => Except.ok v,
       fun _ => Except.ok "ok", "2222"⟩
      "ls-1" "Release" [] rfl).1⟩

end AwsCdkEks
